import Mathlib

set_option maxRecDepth 10000

/-!
# Verification of the MP_lang interpreter front end

A shallow embedding of the MP_lang tree-walking interpreter (lexer, parser,
evaluator) in Lean 4, with theorems checking the natural-language
specification against the code.

Sources embedded (module paths of the Rust crate):
* `src/lexer/mod.rs`, `src/lexer/token.rs`     — tokenizer and token kinds
* `src/parser/mod.rs`, `src/parser/ast.rs`     — recursive-descent parser, AST
* `src/runtime/environment/value.rs`           — `Number`, `Value`
* `src/runtime/environment/mod.rs`             — `Environment`
* `src/runtime/environment/builtin_function.rs`— built-in table
* `src/runtime/error.rs`                       — `InterpreterError`
* `src/runtime/eval/mod.rs`                    — evaluator
* `src/runtime/environment/function/user.rs`   — `UserFunction::call`
  (dead code in the pipeline: the evaluator inlines user calls; embedded
  separately because it implements a different call convention)
* `src/lib.rs`                                 — `run_file` result reporting

Modelling conventions:
* Rust `i128` is modelled as `Int` wrapped into the two's-complement range
  `[-2^127, 2^127)` after every arithmetic operation (`wrapI128`), the
  release-profile overflow semantics; debug builds panic at overflow
  instead, a profile difference noted at `wrapI128`.  Division overflow
  (`i128::MIN / -1`) panics in **all** profiles and is modelled as a panic,
  as is division by zero.
* Rust `f64` is modelled as `Rat`. Every theorem below depends only on the
  `Int`/`Float` constructor tags and on small integer-valued payloads, where
  `f64` and exact rational arithmetic agree; `NaN`/infinity never arise in
  any theorem.
* Rust panics (`unwrap` on `None`, `panic!`, integer division by zero) are
  modelled by the `Outcome.panicked` constructor; panic messages are kept in
  comments next to the definitions.
* Possible non-termination (`while` loops, recursive user functions,
  recursive-descent parsing) is modelled with a fuel parameter; exhausting
  the fuel yields `Outcome.timeout`, which never occurs in the Rust code and
  is distinct from every real outcome.
* `&mut Environment` parameters are modelled by explicit state passing: an
  evaluation returns the produced value together with the updated
  environment.  (An `Err` return discards the environment, which is only
  observable through REPL continuity after an error — not used by any
  theorem.)
* `HashMap<String, _>` is modelled as an association list whose `insert`
  replaces any previous binding of the key; lookup order is irrelevant
  because keys are kept unique.
-/

namespace MPLang

/-- Outcome of running a piece of Rust code that can return `Ok`, return
`Err`, panic, or (in the model only) run out of fuel. -/
inductive Outcome (ε α : Type) where
  | ok (a : α)
  | error (e : ε)
  | panicked
  | timeout
deriving Repr, DecidableEq

/-- `Number` from `value.rs`: `Int(i128) | Float(f64)`. -/
inductive Number where
  | int (i : Int)
  | float (f : Rat)
deriving Repr, DecidableEq

/-- `i128::MIN`, the lower bound of the two's-complement range. -/
def i128Min : Int := -(2 ^ 127)

/-- Wrap an unbounded integer into the `i128` range `[-2^127, 2^127)`,
i.e. two's-complement wrapping: the overflow behaviour of `i128` `+ - *`
and unary `-` in release builds.  Debug builds panic at overflow instead;
the two profiles agree on every non-overflowing operation, and no concrete
program in this file overflows.  Division overflow is different: it panics
in all profiles and is modelled as `none` in `Number.div?` below. -/
def wrapI128 (i : Int) : Int := (i + 2 ^ 127) % 2 ^ 128 - 2 ^ 127

/-- `impl Add for Number` (`value.rs`): same-subvariant addition (`i128`
addition wraps into range, see `wrapI128`); the mixed case is
`panic!("Cannot add non-numeric values")`, modelled as `none`. -/
def Number.add? : Number → Number → Option Number
  | .int i1, .int i2 => some (.int (wrapI128 (i1 + i2)))
  | .float f1, .float f2 => some (.float (f1 + f2))
  | _, _ => none

/-- `impl Sub for Number`: `i128` subtraction wraps into range; the mixed
case panics (`none`). -/
def Number.sub? : Number → Number → Option Number
  | .int i1, .int i2 => some (.int (wrapI128 (i1 - i2)))
  | .float f1, .float f2 => some (.float (f1 - f2))
  | _, _ => none

/-- `impl Mul for Number`: `i128` multiplication wraps into range; the
mixed case panics (`none`). -/
def Number.mul? : Number → Number → Option Number
  | .int i1, .int i2 => some (.int (wrapI128 (i1 * i2)))
  | .float f1, .float f2 => some (.float (f1 * f2))
  | _, _ => none

/-- `impl Div for Number`: mixed case panics (`none`); `i128` division also
panics (in every build profile) on a zero divisor and on the overflow case
`i128::MIN / -1` (`none`).  Rust integer division truncates toward zero,
i.e. `Int.tdiv`, and no other quotient of in-range operands leaves the
range.  (`f64` division never panics; division of the `Rat` model by zero
yields `0` where `f64` would yield `±inf`/`NaN` — no theorem divides
floats.) -/
def Number.div? : Number → Number → Option Number
  | .int i1, .int i2 =>
    if i2 = 0 then none
    else if i1 = i128Min ∧ i2 = -1 then none
    else some (.int (Int.tdiv i1 i2))
  | .float f1, .float f2 => some (.float (f1 / f2))
  | _, _ => none

/-- `impl PartialOrd for Number` (`value.rs`): `partial_cmp` is `None` for
mixed `Int`/`Float` operands. -/
def Number.cmp? : Number → Number → Option Ordering
  | .int i1, .int i2 => some (compare i1 i2)
  | .float f1, .float f2 => some (compare f1 f2)
  | _, _ => none

/-- Rust `l > r` via `PartialOrd`: true iff `partial_cmp` is `Some(Greater)`.
In particular it is `false` for mixed `Int`/`Float` operands. -/
def Number.gtb (l r : Number) : Bool :=
  match l.cmp? r with
  | some .gt => true
  | _ => false

/-- Rust `l >= r` via `PartialOrd`: `Some(Greater | Equal)`. -/
def Number.geb (l r : Number) : Bool :=
  match l.cmp? r with
  | some .gt => true
  | some .eq => true
  | _ => false

/-- Rust `l < r` via `PartialOrd`: `Some(Less)`. -/
def Number.ltb (l r : Number) : Bool :=
  match l.cmp? r with
  | some .lt => true
  | _ => false

/-- Rust `l <= r` via `PartialOrd`: `Some(Less | Equal)`. -/
def Number.leb (l r : Number) : Bool :=
  match l.cmp? r with
  | some .lt => true
  | some .eq => true
  | _ => false

/-- Derived `PartialEq` on `Number`: equal constructor and equal payload;
mixed `Int`/`Float` compare unequal.  (`f64` `NaN != NaN` has no counterpart
in the `Rat` model; no theorem involves `NaN`.) -/
def Number.eqb (l r : Number) : Bool := decide (l = r)

/-- `impl Neg for Number` (total in the source text; `-i128::MIN` wraps to
itself in release builds and panics in debug, see `wrapI128`). -/
def Number.negN : Number → Number
  | .int i => .int (wrapI128 (-i))
  | .float f => .float (-f)

/-- `Value` from `value.rs`.  The array constructor is called `Array` in
`value.rs` and `Vector` in `eval/mod.rs` and the tests (the repository
snapshot mixes the two names); here it is `array`.  `Object` is a
`HashMap<String, Value>`, modelled as an association list; the parser never
produces object literals and no theorem involves objects. -/
inductive Value where
  | number (n : Number)
  | boolean (b : Bool)
  | string (s : String)
  | array (elems : List Value)
  | object (entries : List (String × Value))
  | nil
deriving Repr

/-- `InterpreterError` from `runtime/error.rs`. -/
inductive InterpreterError where
  | UndefinedVariable (name : String)
  | InvalidOperation (msg : String)
  | TypeMismatch (msg : String)
  | UnsupportedExpression (msg : String)
  | Return (value : Value)
  | Break
  | Continue
deriving Repr

/-- `Span` from `lexer/token.rs`. -/
structure Span where
  line : Nat
  column : Nat
deriving Repr, DecidableEq

/-- `TokenKind` from `lexer/token.rs`.  Keyword constructors carry a `Kw`
suffix where the Rust name collides with a Lean keyword. -/
inductive TokenKind where
  | number (n : Number)
  | boolean (b : Bool)
  | string (s : String)
  | comment (s : String)
  | comma
  | plus
  | minus
  | multiply
  | divide
  | assign
  | equal
  | notEqual
  | greaterThan
  | greaterThanOrEqual
  | lessThan
  | lessThanOrEqual
  | leftParen
  | rightParen
  | leftBracket
  | rightBracket
  | leftBrace
  | rightBrace
  | semicolon
  | colon
  | newline
  | identifier (s : String)
  | letKw
  | fnKw
  | ifKw
  | elseKw
  | whileKw
  | breakKw
  | continueKw
  | returnKw
  | eof
deriving Repr, DecidableEq

/-- `Token` from `lexer/token.rs`. -/
structure Token where
  kind : TokenKind
  span : Span
deriving Repr, DecidableEq

mutual
/-- `Expr` from `parser/ast.rs`.  `Variable` is `var`, `If` is `ifExpr`,
`While` is `whileExpr` (Lean keyword collisions).  The `Array`/`Object`
literal constructors of `parser/ast.rs` are omitted: the parser never
produces them and the evaluator (`eval/mod.rs`, whose `Expr` comes from the
variant of `ast.rs` without them) has no arms for them. -/
inductive Expr where
  | number (n : Number)
  | boolean (b : Bool)
  | string (s : String)
  | var (name : String)
  | ifExpr (condition : Expr) (then_branch : Expr) (else_branch : Option Expr)
  | block (stmts : List Stmt)
  | binaryOp (left : Expr) (op : TokenKind) (right : Expr)
  | unaryOp (op : TokenKind) (e : Expr)
  | functionCall (name : String) (args : List Expr)
  | whileExpr (condition : Expr) (body : List Stmt)

/-- `Stmt` from `parser/ast.rs`.  `Expr` is `expr`, `Let` is `letStmt`,
`Function` is `funcDecl`, `Return` is `ret` (Lean keyword collisions). -/
inductive Stmt where
  | expr (e : Expr)
  | letStmt (name : String) (value : Expr)
  | funcDecl (name : String) (params : List String) (body : Expr)
  | result (e : Expr)
  | ret (value : Option Expr)
end

/-- `BuiltinFunction` from `environment/builtin_function.rs` (the table
registered by `Environment::new`). -/
inductive BuiltinFunction where
  | print
  | len
  | toStringB
  | vector
  | push
  | pop
deriving Repr, DecidableEq

/-- `EnvironmentValue`: a binding is a variable, a user function
(`params`, `body`), or a built-in, matching the variants used by
`environment/mod.rs` and `eval/mod.rs`.  `Variable` is `varB` (keyword). -/
inductive EnvironmentValue where
  | varB (value : Value)
  | function (params : List String) (body : Expr)
  | builtin (b : BuiltinFunction)

/-- `Environment` from `environment/mod.rs`: a flat `HashMap` from names to
bindings, modelled as an association list with unique keys. -/
structure Environment where
  values : List (String × EnvironmentValue)

/-- `HashMap::insert`: replace any existing binding of the key. -/
def envInsert (name : String) (v : EnvironmentValue)
    (values : List (String × EnvironmentValue)) :
    List (String × EnvironmentValue) :=
  (name, v) :: values.filter (fun p => p.1 ≠ name)

/-- `Environment::new`: the six pre-registered built-ins. -/
def Environment.new : Environment :=
  ⟨[("print", .builtin .print), ("len", .builtin .len),
    ("toString", .builtin .toStringB), ("vector", .builtin .vector),
    ("push", .builtin .push), ("pop", .builtin .pop)]⟩

/-- `Environment::define`: bind a name to a variable value, overwriting. -/
def Environment.define (env : Environment) (name : String) (value : Value) :
    Environment :=
  ⟨envInsert name (.varB value) env.values⟩

/-- `Environment::define_function`. -/
def Environment.define_function (env : Environment) (name : String)
    (params : List String) (body : Expr) : Environment :=
  ⟨envInsert name (.function params body) env.values⟩

/-- `HashMap::get` on the binding map. -/
def Environment.lookupEnv (env : Environment) (name : String) :
    Option EnvironmentValue :=
  (env.values.find? (fun p => p.1 = name)).map (·.2)

/-- `Environment::get`: a `Variable` binding or `None`. -/
def Environment.get (env : Environment) (name : String) : Option Value :=
  match env.lookupEnv name with
  | some (.varB v) => some v
  | _ => none

/-- `Environment::get_function`: a `Function` binding or `None`. -/
def Environment.get_function (env : Environment) (name : String) :
    Option (List String × Expr) :=
  match env.lookupEnv name with
  | some (.function params body) => some (params, body)
  | _ => none

mutual
/-- Display length of a `Value`, following `impl Display for Value` in
`value.rs`; used only by the `toString` built-in, which returns the length
of the displayed string.  Exact for integers, booleans, strings, arrays and
`nil`; for `Float` payloads the model uses the `Rat` rendering where Rust
formats the `f64` with a debug format (no theorem displays a float). -/
def Value.displayLen : Value → Nat
  | .number (.int i) => (toString i).length
  | .number (.float f) => (toString f).length
  | .boolean b => if b then 4 else 5
  | .string s => s.length
  | .array v => 2 + displayLenList v
  | .object o => 2 + displayLenEntries o
  | .nil => 3

/-- Elements joined by `", "`. -/
def displayLenList : List Value → Nat
  | [] => 0
  | [v] => v.displayLen
  | v :: rest => v.displayLen + 2 + displayLenList rest

/-- `key: value` entries joined by `", "`. -/
def displayLenEntries : List (String × Value) → Nat
  | [] => 0
  | [(k, v)] => k.length + 2 + v.displayLen
  | (k, v) :: rest => k.length + 2 + v.displayLen + 2 + displayLenEntries rest
end

/-- `BuiltinFunction::call` from `builtin_function.rs`.  `print` writes to
the console (outside the model) and returns `Nil`.  `len` on a number is
`n.abs()`; the file predates the `Int`/`Float` split, so `abs` is modelled
per subvariant.  No theorem below calls a built-in. -/
def BuiltinFunction.call (b : BuiltinFunction) (args : List Value) :
    Outcome InterpreterError Value :=
  match b with
  | .print => .ok .nil
  | .len =>
    match args.head? with
    | some (.number (.int i)) => .ok (.number (.int i.natAbs))
    | some (.number (.float f)) => .ok (.number (.float (abs f)))
    | some (.boolean b) =>
        .ok (.number (.float (if b then (1 : Rat) else 0)))
    | some .nil => .ok (.number (.float 0))
    | some (.array v) => .ok (.number (.float v.length))
    | _ => .error (.TypeMismatch ("len() expects a number, boolean, nil or vector"))
  | .toStringB =>
    match args.head? with
    | some v => .ok (.number (.float v.displayLen))
    | none => .error (.TypeMismatch ("toString() expects one argument"))
  | .vector => .ok (.array args)
  | .push =>
    match args with
    | [.array v, item] => .ok (.array (v ++ [item]))
    | _ => .error (.TypeMismatch ("push() expects a vector and an item"))
  | .pop =>
    match args.head? with
    | some (.array v) =>
      match v.getLast? with
      | some last => .ok last
      | none => .error (.InvalidOperation ("Cannot pop from empty vector"))
    | _ => .error (.TypeMismatch ("pop() expects a vector"))

/-- Dispatch of a non-assignment binary operator on two evaluated operands
(`eval_expr`, `Expr::BinaryOp` match in `eval/mod.rs`, lines 71–93).
The `Equal` arms are transcribed although they are unreachable: control
reaches this dispatch only when `op` is not `Equal` (the assignment
interception returns first). -/
def evalBinaryNumberOp (op : TokenKind) (l r : Number) :
    Outcome InterpreterError Value :=
  match op with
  | .plus => match l.add? r with
    | some n => .ok (.number n)
    | none => .panicked   -- panic!("Cannot add non-numeric values")
  | .minus => match l.sub? r with
    | some n => .ok (.number n)
    | none => .panicked   -- panic!("Cannot subtract non-numeric values")
  | .multiply => match l.mul? r with
    | some n => .ok (.number n)
    | none => .panicked   -- panic!("Cannot multiply non-numeric values")
  | .divide => match l.div? r with
    | some n => .ok (.number n)
    | none => .panicked   -- mixed panic, or i128 division by zero
  | .greaterThan => .ok (.boolean (l.gtb r))
  | .greaterThanOrEqual => .ok (.boolean (l.geb r))
  | .lessThan => .ok (.boolean (l.ltb r))
  | .lessThanOrEqual => .ok (.boolean (l.leb r))
  | .equal => .ok (.boolean (l.eqb r))          -- unreachable, see above
  | .notEqual => .ok (.boolean (!(l.eqb r)))
  | _ => .error (.InvalidOperation ("unsupported operator"))

/-- Value-pair dispatch for a non-assignment binary operator
(`eval/mod.rs`, lines 71–93). -/
def evalBinaryOpValues (op : TokenKind) (lv rv : Value) :
    Outcome InterpreterError Value :=
  match lv, rv with
  | .number l, .number r => evalBinaryNumberOp op l r
  | .boolean l, .boolean r =>
    match op with
    | .equal => .ok (.boolean (l == r))
    | .notEqual => .ok (.boolean (l != r))
    | _ => .error (.InvalidOperation ("unsupported operator"))
  | _, _ => .error (.TypeMismatch ("操作数类型不匹配"))

mutual
/-- `eval_expr` from `eval/mod.rs`, with fuel.  Returns the value together
with the updated (caller-visible) environment. -/
def eval_expr : Nat → Expr → Environment →
    Outcome InterpreterError (Value × Environment)
  | 0, _, _ => .timeout
  | fuel+1, e, env =>
    match e with
    | .number n => .ok (.number n, env)
    | .boolean b => .ok (.boolean b, env)
    | .string s => .ok (.string s, env)
    | .var name =>
      match env.get name with
      | some v => .ok (v, env)
      | none => .error (.UndefinedVariable name)
    | .binaryOp left op right =>
      if op = .equal then
        match left with
        | .var name =>
          match eval_expr fuel right env with
          | .ok (rv, env1) => .ok (rv, env1.define name rv)
          | .error er => .error er
          | .panicked => .panicked
          | .timeout => .timeout
        | _ => .error (.InvalidOperation ("Invalid assignment target"))
      else
        match eval_expr fuel left env with
        | .ok (lv, env1) =>
          match eval_expr fuel right env1 with
          | .ok (rv, env2) =>
            match evalBinaryOpValues op lv rv with
            | .ok v => .ok (v, env2)
            | .error er => .error er
            | .panicked => .panicked
            | .timeout => .timeout
          | .error er => .error er
          | .panicked => .panicked
          | .timeout => .timeout
        | .error er => .error er
        | .panicked => .panicked
        | .timeout => .timeout
    | .unaryOp op e1 =>
      match eval_expr fuel e1 env with
      | .ok (v, env1) =>
        match op, v with
        | .minus, .number n => .ok (.number n.negN, env1)
        | _, _ => .error (.InvalidOperation ("unsupported unary operator"))
      | .error er => .error er
      | .panicked => .panicked
      | .timeout => .timeout
    | .functionCall name args =>
      match env.get_function name with
      | some (params, body) =>
        if params.length ≠ args.length then
          .error (.InvalidOperation ("参数数量不匹配"))
        else
          -- let mut call_env = env.clone();  (taken before argument evaluation)
          match eval_call_args fuel (params.zip args) env env with
          | .ok (env', call_env') =>
            match eval_expr fuel body call_env' with
            | .ok (v, _) => .ok (v, env')
            | .error (.Return v) => .ok (v, env')
            | .error er => .error er
            | .panicked => .panicked
            | .timeout => .timeout
          | .error er => .error er
          | .panicked => .panicked
          | .timeout => .timeout
      | none =>
        match eval_builtin_args fuel args env with
        | .ok vals =>
          match env.lookupEnv name with
          | some (.builtin b) =>
            match b.call vals with
            | .ok v => .ok (v, env)
            | .error er => .error er
            | .panicked => .panicked
            | .timeout => .timeout
          | _ => .error (.UndefinedVariable name)
        | .error er => .error er
        | .panicked => .panicked
        | .timeout => .timeout
    | .ifExpr condition then_branch else_branch =>
      match eval_expr fuel condition env with
      | .ok (.boolean b, env1) =>
        if b then eval_expr fuel then_branch env1
        else
          match else_branch with
          | some eb => eval_expr fuel eb env1
          | none => .ok (.nil, env1)
      | .ok (_, _) => .error (.TypeMismatch ("If condition must be boolean"))
      | .error er => .error er
      | .panicked => .panicked
      | .timeout => .timeout
    | .block statements =>
      -- let mut block_env = env.clone(); … ; Ok(result)  — `env` is unchanged
      match eval_stmts fuel statements env .nil with
      | .ok (v, _) => .ok (v, env)
      | .error er => .error er
      | .panicked => .panicked
      | .timeout => .timeout
    | .whileExpr condition body =>
      match while_aux fuel condition body env [] with
      | .ok (acc, env1) =>
        .ok ((if acc.isEmpty then .nil else .array acc), env1)
      | .error er => .error er
      | .panicked => .panicked
      | .timeout => .timeout

/-- `eval_stmt` from `eval/mod.rs`, with fuel. -/
def eval_stmt : Nat → Stmt → Environment →
    Outcome InterpreterError (Value × Environment)
  | 0, _, _ => .timeout
  | fuel+1, s, env =>
    match s with
    | .expr e =>
      match eval_expr fuel e env with
      | .ok (_, env1) => .ok (.nil, env1)
      | .error er => .error er
      | .panicked => .panicked
      | .timeout => .timeout
    | .letStmt name value =>
      match eval_expr fuel value env with
      | .ok (v, env1) => .ok (.nil, env1.define name v)
      | .error er => .error er
      | .panicked => .panicked
      | .timeout => .timeout
    | .funcDecl name params body =>
      .ok (.nil, env.define_function name params body)
    | .result e => eval_expr fuel e env
    | .ret (some e) =>
      match eval_expr fuel e env with
      | .ok (v, _) => .error (.Return v)
      | .error er => .error er
      | .panicked => .panicked
      | .timeout => .timeout
    | .ret none => .error (.Return .nil)

/-- The statement loop shared by `eval_with_env` and `Expr::Block`:
`result` starts as `Nil` and is overwritten by each statement's value. -/
def eval_stmts : Nat → List Stmt → Environment → Value →
    Outcome InterpreterError (Value × Environment)
  | 0, _, _, _ => .timeout
  | _+1, [], env, result => .ok (result, env)
  | fuel+1, s :: rest, env, _ =>
    match eval_stmt fuel s env with
    | .ok (v, env1) => eval_stmts fuel rest env1 v
    | .error er => .error er
    | .panicked => .panicked
    | .timeout => .timeout

/-- The argument loop of a user-function call (`eval/mod.rs`, lines
110–114): each argument is evaluated in the caller's environment (threaded,
so its mutations persist there), and the parameter is bound into the
separate `call_env` clone. -/
def eval_call_args : Nat → List (String × Expr) → Environment → Environment →
    Outcome InterpreterError (Environment × Environment)
  | 0, _, _, _ => .timeout
  | _+1, [], env, call_env => .ok (env, call_env)
  | fuel+1, (param, arg) :: rest, env, call_env =>
    match eval_expr fuel arg env with
    | .ok (v, env1) => eval_call_args fuel rest env1 (call_env.define param v)
    | .error er => .error er
    | .panicked => .panicked
    | .timeout => .timeout

/-- The argument loop of a built-in call (`eval/mod.rs`, lines 121–124):
each argument is evaluated in `&mut env.clone()`, a fresh clone, so the
caller environment is never changed and argument side effects are
discarded. -/
def eval_builtin_args : Nat → List Expr → Environment →
    Outcome InterpreterError (List Value)
  | 0, _, _ => .timeout
  | _+1, [], _ => .ok []
  | fuel+1, arg :: rest, env =>
    match eval_expr fuel arg env with
    | .ok (v, _) => -- the clone with its mutations is dropped
      match eval_builtin_args fuel rest env with
      | .ok vs => .ok (v :: vs)
      | .error er => .error er
      | .panicked => .panicked
      | .timeout => .timeout
    | .error er => .error er
    | .panicked => .panicked
    | .timeout => .timeout

/-- The `loop` of `Expr::While` (`eval/mod.rs`, lines 159–177): re-evaluate
the condition, require it Boolean, stop on `false`; otherwise run
`body.split_last().unwrap()` — a panic when the body is empty — executing
the initial statements for effect and pushing the last statement's value
onto the accumulator. -/
def while_aux : Nat → Expr → List Stmt → Environment → List Value →
    Outcome InterpreterError (List Value × Environment)
  | 0, _, _, _, _ => .timeout
  | fuel+1, condition, body, env, acc =>
    match eval_expr fuel condition env with
    | .ok (.boolean b, env1) =>
      if !b then .ok (acc, env1)
      else
        match body.getLast? with
        | none => .panicked  -- body.split_last().unwrap() on an empty body
        | some last =>
          match eval_stmts fuel body.dropLast env1 .nil with
          | .ok (_, env2) =>
            match eval_stmt fuel last env2 with
            | .ok (v, env3) => while_aux fuel condition body env3 (acc ++ [v])
            | .error er => .error er
            | .panicked => .panicked
            | .timeout => .timeout
          | .error er => .error er
          | .panicked => .panicked
          | .timeout => .timeout
    | .ok (_, _) => .error (.TypeMismatch ("While condition must be boolean"))
    | .error er => .error er
    | .panicked => .panicked
    | .timeout => .timeout
end

/-- `eval_with_env` from `eval/mod.rs`. -/
def eval_with_env (fuel : Nat) (ast : List Stmt) (env : Environment) :
    Outcome InterpreterError (Value × Environment) :=
  eval_stmts fuel ast env .nil

/-- `eval` from `eval/mod.rs`: fresh environment. -/
def evalProgram (fuel : Nat) (ast : List Stmt) :
    Outcome InterpreterError (Value × Environment) :=
  eval_with_env fuel ast Environment.new

/-- `UserFunction::call` from `environment/function/user.rs` (dead code in
the pipeline): builds a *brand-new* environment — built-ins only, no user
function definitions — binds the parameters into it, evaluates the body
there, and converts an `Err(Return(v))` into `Ok(v)`. -/
def UserFunction.call (fuel : Nat) (params : List String) (body : Expr)
    (args : List Value) : Outcome InterpreterError Value :=
  let env := (args.zip params).foldl
    (fun env p => env.define p.2 p.1) Environment.new
  match eval_expr fuel body env with
  | .ok (v, _) => .ok v
  | .error (.Return v) => .ok v
  | .error er => .error er
  | .panicked => .panicked
  | .timeout => .timeout

/-- The result reporting of `run_file` in `lib.rs`: both `Ok(value)` and
`Err(InterpreterError::Return(value))` print `=> value` (success, `some`);
any other error prints `Execution error` (`none`). -/
def run_file_report (r : Outcome InterpreterError (Value × Environment)) :
    Option Value :=
  match r with
  | .ok (v, _) => some v
  | .error (.Return v) => some v
  | _ => none

/-! ## Lexer (`lexer/mod.rs`)

The tokenizer state mirrors `struct Lexer`: the character vector and the
`position`/`line`/`column` counters.  Each scanning loop of the source
advances `position` by at least one, so the helpers recurse on
`input.length - position` and the main loop takes `input.length + 1` fuel,
which is never exhausted. -/

/-- `LexerError` from `lexer/error/mod.rs`. -/
inductive LexerError where
  | UnknownOperator (c : Char) (span : Span)
  | InvalidNumber (s : String) (span : Span)
  | UnexpectedChar (c : Char) (span : Span)
deriving Repr, DecidableEq

/-- `struct Lexer`: the scanning state. -/
structure LexState where
  input : List Char
  position : Nat
  line : Nat
  column : Nat
deriving Repr

/-- `input[position]`, guarded by `position < input.len()` at every use. -/
def LexState.cur (st : LexState) : Char := st.input.getD st.position ' '

/-- The single-line comment loop (`'/'` arm): consume to the next newline,
collecting the text; `column` is not advanced (as in the source).  Fueled
structurally (the loop advances `position` each step, so the wrapper's
`input.length - position` fuel always suffices). -/
def scanLineCommentF : Nat → LexState → String → String × LexState
  | 0, st, acc => (acc, st)
  | f+1, st, acc =>
    if st.position < st.input.length then
      if st.cur ≠ '\n' then
        scanLineCommentF f { st with position := st.position + 1 }
          (acc.push st.cur)
      else (acc, st)
    else (acc, st)

/-- Wrapper for `scanLineCommentF` with sufficient fuel. -/
def scanLineComment (st : LexState) (acc : String) : String × LexState :=
  scanLineCommentF (st.input.length - st.position) st acc

/-- The block comment loop (`'/'` arm): nesting depth, `*/` and `/*` pairs
advance by two, anything else by one; newlines reset `column`. -/
def scanBlockCommentF : Nat → LexState → String → Nat → String × LexState
  | 0, st, acc, _ => (acc, st)
  | f+1, st, acc, depth =>
    if 0 < depth ∧ st.position + 1 < st.input.length then
      let c0 := st.cur
      let c1 := st.input.getD (st.position + 1) ' '
      if c0 = '*' ∧ c1 = '/' then
        let st' := { st with position := st.position + 2,
                             column := st.column + 2 }
        if depth - 1 = 0 then (acc, st')
        else scanBlockCommentF f st' acc (depth - 1)
      else if c0 = '/' ∧ c1 = '*' then
        scanBlockCommentF f { st with position := st.position + 2,
                                      column := st.column + 2 } acc (depth + 1)
      else if c0 = '\n' then
        scanBlockCommentF f { st with position := st.position + 1,
                                      line := st.line + 1, column := 1 }
          (acc.push c0) depth
      else
        scanBlockCommentF f { st with position := st.position + 1,
                                      column := st.column + 1 }
          (acc.push c0) depth
    else (acc, st)

/-- Wrapper for `scanBlockCommentF` with sufficient fuel. -/
def scanBlockComment (st : LexState) (acc : String) (depth : Nat) :
    String × LexState :=
  scanBlockCommentF (st.input.length - st.position) st acc depth

/-- The numeric literal loop: consume ASCII digits and `'.'`. -/
def scanNumberF : Nat → LexState → String → String × LexState
  | 0, st, acc => (acc, st)
  | f+1, st, acc =>
    if st.position < st.input.length then
      if st.cur.isDigit ∨ st.cur = '.' then
        scanNumberF f { st with position := st.position + 1,
                                column := st.column + 1 } (acc.push st.cur)
      else (acc, st)
    else (acc, st)

/-- Wrapper for `scanNumberF` with sufficient fuel. -/
def scanNumber (st : LexState) (acc : String) : String × LexState :=
  scanNumberF (st.input.length - st.position) st acc

/-- The identifier loop: consume ASCII alphanumerics and `'_'`. -/
def scanIdentF : Nat → LexState → String → String × LexState
  | 0, st, acc => (acc, st)
  | f+1, st, acc =>
    if st.position < st.input.length then
      if st.cur.isAlphanum ∨ st.cur = '_' then
        scanIdentF f { st with position := st.position + 1,
                               column := st.column + 1 } (acc.push st.cur)
      else (acc, st)
    else (acc, st)

/-- Wrapper for `scanIdentF` with sufficient fuel. -/
def scanIdent (st : LexState) (acc : String) : String × LexState :=
  scanIdentF (st.input.length - st.position) st acc

/-- Escape translation inside a string literal. -/
def escapeChar (c : Char) : Char :=
  if c = 'n' then '\n'
  else if c = 't' then '\t'
  else if c = 'r' then '\r'
  else c   -- '"', '\\' and any other character map to themselves

/-- The string literal loop: returns the content, whether the closing quote
was found, and the state after it. -/
def scanStringF : Nat → LexState → String → Bool → String × Bool × LexState
  | 0, st, acc, _ => (acc, false, st)
  | f+1, st, acc, escaped =>
    if st.position < st.input.length then
      let c := st.cur
      let st1 : LexState := { st with position := st.position + 1,
                                      column := st.column + 1 }
      if escaped then scanStringF f st1 (acc.push (escapeChar c)) false
      else if c = '\\' then scanStringF f st1 acc true
      else if c = '"' then (acc, true, st1)
      else scanStringF f st1 (acc.push c) false
    else (acc, false, st)

/-- Wrapper for `scanStringF` with sufficient fuel. -/
def scanString (st : LexState) (acc : String) (escaped : Bool) :
    String × Bool × LexState :=
  scanStringF (st.input.length - st.position) st acc escaped

/-- Decimal value of a digit string. -/
def digitsToNat (cs : List Char) : Nat :=
  cs.foldl (fun a c => a * 10 + (c.toNat - 48)) 0

/-- Keyword dispatch of the identifier arm of `Lexer::tokenize`. -/
def identKind (ident : String) : TokenKind :=
  if ident = "true" then .boolean true
  else if ident = "false" then .boolean false
  else if ident = "let" then .letKw
  else if ident = "fn" then .fnKw
  else if ident = "if" then .ifKw
  else if ident = "else" then .elseKw
  else if ident = "while" then .whileKw
  else if ident = "return" then .returnKw
  else .identifier ident

/-- `Number::from_str` (`value.rs`): try `i128` first, then `f64`.  The
scanned string consists of digits and dots and starts with a digit, so the
`i128` parse succeeds exactly on all-digit strings, and the `f64` parse
succeeds exactly when there is a single dot (exponent forms never arise). -/
def parseNumberString (s : String) : Option Number :=
  let cs := s.toList
  if cs ≠ [] ∧ cs.all (·.isDigit) then
    some (.int (digitsToNat cs))
  else
    match cs.splitOn '.' with
    | [ip, fp] =>
      if ip ≠ [] ∧ ip.all (·.isDigit) ∧ fp.all (·.isDigit) then
        some (.float ((digitsToNat ip : Rat) +
          (digitsToNat fp : Rat) / ((10 : Rat) ^ fp.length)))
      else none
    | _ => none

/-- `self.position += 1; self.column += 1` — the one-character advance
used by most arms of `Lexer::tokenize`. -/
def LexState.bump (st : LexState) : LexState :=
  { st with position := st.position + 1, column := st.column + 1 }

/-- One iteration of `Lexer::tokenize`'s `while` loop (entered only when
`position < input.len()`): dispatch on the current character, producing
either a token to push (`some`), nothing (whitespace), or a `LexerError`,
together with the advanced state. -/
def lexStep (st : LexState) : Outcome LexerError (Option Token × LexState) :=
  if st.cur = ' ' ∨ st.cur = '\t' ∨ st.cur = '\r' then
    .ok (none, st.bump)
  else if st.cur = '\n' then
    .ok (some ⟨.newline, ⟨st.line, st.column⟩⟩,
      { st with position := st.position + 1, line := st.line + 1,
                column := 1 })
  else if st.cur = '+' then
    .ok (some ⟨.plus, ⟨st.line, st.column⟩⟩, st.bump)
  else if st.cur = '-' then
    .ok (some ⟨.minus, ⟨st.line, st.column⟩⟩, st.bump)
  else if st.cur = '*' then
    .ok (some ⟨.multiply, ⟨st.line, st.column⟩⟩, st.bump)
  else if st.cur = '/' then
    if st.bump.position < st.bump.input.length then
      if st.bump.cur = '/' then
        match scanLineComment st.bump "" with
        | (comment, st2) =>
          .ok (some ⟨.comment comment, ⟨st.line, st.column⟩⟩, st2)
      else if st.bump.cur = '*' then
        match scanBlockComment st.bump.bump "" 1 with
        | (comment, st3) =>
          .ok (some ⟨.comment comment, ⟨st.line, st.column⟩⟩, st3)
      else .ok (some ⟨.divide, ⟨st.line, st.column⟩⟩, st.bump)
    else .ok (some ⟨.divide, ⟨st.line, st.column⟩⟩, st.bump)
  else if st.cur = '=' then
    -- Both the `==` and the bare `=` arm push `TokenKind::Equal`
    -- (`lexer/mod.rs`, lines 145–161); `Assign` is never produced.
    if st.bump.position < st.bump.input.length ∧ st.bump.cur = '=' then
      .ok (some ⟨.equal, ⟨st.line, st.column⟩⟩, st.bump.bump)
    else .ok (some ⟨.equal, ⟨st.line, st.column⟩⟩, st.bump)
  else if st.cur = '!' then
    if st.bump.position < st.bump.input.length ∧ st.bump.cur = '=' then
      .ok (some ⟨.notEqual, ⟨st.line, st.column⟩⟩, st.bump.bump)
    else .error (.UnknownOperator '!' ⟨st.line, st.column⟩)
  else if st.cur = '>' then
    if st.bump.position < st.bump.input.length ∧ st.bump.cur = '=' then
      .ok (some ⟨.greaterThanOrEqual, ⟨st.line, st.column⟩⟩, st.bump.bump)
    else .ok (some ⟨.greaterThan, ⟨st.line, st.column⟩⟩, st.bump)
  else if st.cur = '<' then
    if st.bump.position < st.bump.input.length ∧ st.bump.cur = '=' then
      .ok (some ⟨.lessThanOrEqual, ⟨st.line, st.column⟩⟩, st.bump.bump)
    else .ok (some ⟨.lessThan, ⟨st.line, st.column⟩⟩, st.bump)
  else if st.cur = '(' then
    .ok (some ⟨.leftParen, ⟨st.line, st.column⟩⟩, st.bump)
  else if st.cur = ')' then
    .ok (some ⟨.rightParen, ⟨st.line, st.column⟩⟩, st.bump)
  else if st.cur = ',' then
    .ok (some ⟨.comma, ⟨st.line, st.column⟩⟩, st.bump)
  else if st.cur = '{' then
    .ok (some ⟨.leftBrace, ⟨st.line, st.column⟩⟩, st.bump)
  else if st.cur = '}' then
    .ok (some ⟨.rightBrace, ⟨st.line, st.column⟩⟩, st.bump)
  else if st.cur = ';' then
    .ok (some ⟨.semicolon, ⟨st.line, st.column⟩⟩, st.bump)
  else if st.cur.isDigit then
    match scanNumber st "" with
    | (numStr, st1) =>
      match parseNumberString numStr with
      | some n => .ok (some ⟨.number n, ⟨st.line, st.column⟩⟩, st1)
      | none => .error (.InvalidNumber numStr ⟨st.line, st.column⟩)
  else if st.cur.isAlpha ∨ st.cur = '_' then
    match scanIdent st "" with
    | (ident, st1) =>
      .ok (some ⟨identKind ident, ⟨st.line, st.column⟩⟩, st1)
  else if st.cur = '"' then
    match scanString st.bump "" false with
    | (s, closed, st2) =>
      if closed then .ok (some ⟨.string s, ⟨st.line, st.column⟩⟩, st2)
      else .error (.UnexpectedChar '"' ⟨st.line, st.column⟩)
  else .error (.UnexpectedChar st.cur ⟨st.line, st.column⟩)

/-- The `while position < input.len()` loop of `Lexer::tokenize` plus the
final `Eof` push, with fuel (one unit per iteration; every iteration
advances `position`, so `input.length + 1` fuel always suffices). -/
def tokenizeLoop : Nat → LexState → List Token →
    Outcome LexerError (List Token)
  | 0, _, _ => .timeout
  | fuel+1, st, tokens =>
    if st.position < st.input.length then
      match lexStep st with
      | .ok (some t, st1) => tokenizeLoop fuel st1 (tokens ++ [t])
      | .ok (none, st1) => tokenizeLoop fuel st1 tokens
      | .error e => .error e
      | .panicked => .panicked
      | .timeout => .timeout
    else
      .ok (tokens ++ [⟨.eof, ⟨st.line, st.column⟩⟩])

/-- `tokenize` from `lexer/mod.rs`.  (The snapshot's `lexer/mod.rs` parses
every numeric literal as `f64`, which does not type-check against the
`TokenKind::Number(Number)` of `lexer/token.rs`; the model uses
`Number::from_str` of `value.rs` — `i128` first, then `f64` — the parse the
`Number`-typed token requires.) -/
def tokenize (source : String) : Outcome LexerError (List Token) :=
  tokenizeLoop (source.length + 1) ⟨source.toList, 0, 1, 1⟩ []

/-! ## Parser (`parser/mod.rs`)

The parser state mirrors `struct Parser`: the token vector and the
`current` cursor.  Grammar productions are mutually recursive and take
fuel; exhausting it yields `timeout` (which stands for the non-termination
the Rust code cannot exhibit on lexer-produced streams).  Helper accessors
are fuel-free.

Token streams produced by `tokenize` always end in an `Eof` token and the
cursor never moves past it, so the Rust `self.tokens[self.current]` index
is always in bounds; the model's accessor defaults to an `Eof` token out of
range (a case no theorem exercises). -/

/-- `ParserErrorKind` from `parser/error/mod.rs`. -/
inductive ParserErrorKind where
  | UnexpectedToken (token : Token)
  | UnexpectedEOF
  | InvalidSyntax
deriving Repr, DecidableEq

/-- `ParserError`: a kind plus a static message. -/
structure ParserError where
  kind : ParserErrorKind
  message : String
deriving Repr, DecidableEq

/-- `struct Parser`: token vector and cursor. -/
structure PState where
  tokens : List Token
  current : Nat
deriving Repr

/-- `self.tokens[self.current]` (in bounds on every reachable state). -/
def PState.currentTok (s : PState) : Token :=
  s.tokens.getD s.current ⟨.eof, ⟨0, 0⟩⟩

/-- `self.tokens[self.current - 1]`. -/
def PState.previousTok (s : PState) : Token :=
  s.tokens.getD (s.current - 1) ⟨.eof, ⟨0, 0⟩⟩

/-- `Parser::is_at_end`. -/
def PState.is_at_end (s : PState) : Bool :=
  s.currentTok.kind = .eof

/-- `Parser::check`. -/
def PState.check (s : PState) (kind : TokenKind) : Bool :=
  if s.is_at_end then false else s.currentTok.kind = kind

/-- `Parser::advance`: bump the cursor unless at `Eof`, return the token
before the (new) cursor. -/
def PState.advance (s : PState) : Token × PState :=
  let s' := if s.is_at_end then s else { s with current := s.current + 1 }
  (s'.previousTok, s')

/-- `Parser::match_token`. -/
def PState.match_token (s : PState) (kind : TokenKind) : Bool × PState :=
  if s.check kind then (true, (s.advance).2) else (false, s)

/-- `Parser::consume`. -/
def PState.consume (s : PState) (kind : TokenKind) (message : String) :
    Outcome ParserError PState :=
  if s.check kind then .ok (s.advance).2
  else .error ⟨.UnexpectedToken s.currentTok, message⟩

/-- `Parser::consume_identifier`. -/
def PState.consume_identifier (s : PState) :
    Outcome ParserError (String × PState) :=
  let (tok, s1) := s.advance
  match tok.kind with
  | .identifier name => .ok (name, s1)
  | _ => .error ⟨.UnexpectedToken s1.currentTok, "Expect identifier"⟩

lemma check_lt_length {s : PState} {kind : TokenKind}
    (h : s.check kind = true) : s.current < s.tokens.length := by
  by_contra hlt
  push_neg at hlt
  have hnone : s.tokens[s.current]? = none := List.getElem?_eq_none hlt
  simp [PState.check, PState.is_at_end, PState.currentTok,
    List.getD_eq_getElem?_getD, hnone] at h

/-- `Parser::delete_continuous_tokens`: consume a maximal run of one token
kind.  Fueled structurally; each iteration advances the cursor, so the
wrapper's `tokens.length - current` fuel always suffices (`check` fails at
or past the `Eof` sentinel). -/
def delete_continuous_tokensF : Nat → TokenKind → PState → PState
  | 0, _, s => s
  | f+1, kind, s =>
    if s.check kind then delete_continuous_tokensF f kind (s.advance).2
    else s

/-- Wrapper for `delete_continuous_tokensF` with sufficient fuel. -/
def delete_continuous_tokens (kind : TokenKind) (s : PState) : PState :=
  delete_continuous_tokensF (s.tokens.length - s.current) kind s

/-- `Parser::delete_empty_lines`. -/
def delete_empty_lines (s : PState) : PState :=
  delete_continuous_tokens .newline s

/-- `Parser::delete_empty_statements`: a semicolon run, then a newline
run. -/
def delete_empty_statements (s : PState) : PState :=
  delete_continuous_tokens .newline (delete_continuous_tokens .semicolon s)

/-- `Parser::is_at_last_not_empty_line` — note the side effect: the newline
run at the cursor is consumed. -/
def is_at_last_not_empty_line (s : PState) : Bool × PState :=
  let s1 := delete_empty_lines s
  (s1.is_at_end, s1)

/-- `Parser::is_at_block_last_not_empty_line` — same side effect. -/
def is_at_block_last_not_empty_line (s : PState) : Bool × PState :=
  let s1 := delete_empty_lines s
  (s1.check .rightBrace, s1)

/-- The `Result`-vs-`Expr` classification of a freshly parsed bare
expression (`Parser::statement`, lines 59–73), transcribed with the exact
evaluation order and side effects of the Rust `&&`/`||` chains. -/
def classifyAfterExpr (e : Expr) (s : PState) :
    Outcome ParserError (Stmt × PState) :=
  if s.check .semicolon then .ok (.expr e, s)
  else if s.check .newline then
    let (bl, s1) := is_at_block_last_not_empty_line s
    if !bl then
      let (ll, s2) := is_at_last_not_empty_line s1
      if !ll then .ok (.expr e, s2)
      else
        -- first condition false; second: is_at_last || is_at_block_last
        let (ll2, s3) := is_at_last_not_empty_line s2
        if ll2 then .ok (.result e, s3)
        else
          let (bl2, s4) := is_at_block_last_not_empty_line s3
          if bl2 then .ok (.result e, s4)
          else .error ⟨.UnexpectedToken s4.currentTok,
            "Unexpected token: {:?}. Expected a statement."⟩
    else
      let (ll2, s3) := is_at_last_not_empty_line s1
      if ll2 then .ok (.result e, s3)
      else
        let (bl2, s4) := is_at_block_last_not_empty_line s3
        if bl2 then .ok (.result e, s4)
        else .error ⟨.UnexpectedToken s4.currentTok,
          "Unexpected token: {:?}. Expected a statement."⟩
  else
    let (ll2, s3) := is_at_last_not_empty_line s
    if ll2 then .ok (.result e, s3)
    else
      let (bl2, s4) := is_at_block_last_not_empty_line s3
      if bl2 then .ok (.result e, s4)
      else .error ⟨.UnexpectedToken s4.currentTok,
        "Unexpected token: {:?}. Expected a statement."⟩

/-- The statement epilogue (`Parser::statement`, lines 75–84): separator
consumption, the `panic!("Unexpected token…")` guard, and the trailing
`delete_empty_statements`. -/
def finishStatement (stmt : Stmt) (s : PState) :
    Outcome ParserError (Stmt × PState) :=
  let (m1, s1) := s.match_token .semicolon
  if m1 then .ok (stmt, delete_empty_statements s1)
  else
    let (m2, s2) := s1.match_token .newline
    if m2 then .ok (stmt, delete_empty_statements s2)
    else
      let (l1, s3) := is_at_last_not_empty_line s2
      if l1 then .ok (stmt, delete_empty_statements s3)
      else
        let (l2, s4) := is_at_block_last_not_empty_line s3
        if l2 then .ok (stmt, delete_empty_statements s4)
        else
          match stmt with
          | .expr _ => .ok (stmt, delete_empty_statements s4)
          | .result _ => .ok (stmt, delete_empty_statements s4)
          | _ => .panicked   -- panic!("Unexpected token: {:?}", current)

mutual
/-- `Parser::statement`, with fuel. -/
def statementP : Nat → PState → Outcome ParserError (Stmt × PState)
  | 0, _ => .timeout
  | fuel+1, s0 =>
    let s := delete_empty_statements s0
    let (mLet, s1) := s.match_token .letKw
    if mLet then
      match let_statement fuel s1 with
      | .ok (stmt, s2) => finishStatement stmt s2
      | .error er => .error er
      | .panicked => .panicked
      | .timeout => .timeout
    else
      let (mFn, s1) := s.match_token .fnKw
      if mFn then
        match function_statement fuel s1 with
        | .ok (stmt, s2) => finishStatement stmt s2
        | .error er => .error er
        | .panicked => .panicked
        | .timeout => .timeout
      else
        let (mRet, s1) := s.match_token .returnKw
        if mRet then
          if !(s1.check .semicolon) ∧ !(s1.check .newline) then
            match expression fuel s1 with
            | .ok (e, s2) => finishStatement (.ret (some e)) s2
            | .error er => .error er
            | .panicked => .panicked
            | .timeout => .timeout
          else finishStatement (.ret none) s1
        else
          match expression fuel s with
          | .ok (e, s2) =>
            match classifyAfterExpr e s2 with
            | .ok (stmt, s3) => finishStatement stmt s3
            | .error er => .error er
            | .panicked => .panicked
            | .timeout => .timeout
          | .error er => .error er
          | .panicked => .panicked
          | .timeout => .timeout

/-- `Parser::let_statement`. -/
def let_statement : Nat → PState → Outcome ParserError (Stmt × PState)
  | 0, _ => .timeout
  | fuel+1, s =>
    match s.consume_identifier with
    | .ok (name, s1) =>
      match s1.consume .equal "Expect '=' after variable name" with
      | .ok s2 =>
        match expression fuel s2 with
        | .ok (value, s3) => .ok (.letStmt name value, s3)
        | .error er => .error er
        | .panicked => .panicked
        | .timeout => .timeout
      | .error er => .error er
      | .panicked => .panicked
      | .timeout => .timeout
    | .error er => .error er
    | .panicked => .panicked
    | .timeout => .timeout

/-- `Parser::function_statement`. -/
def function_statement : Nat → PState → Outcome ParserError (Stmt × PState)
  | 0, _ => .timeout
  | fuel+1, s =>
    match s.consume_identifier with
    | .ok (name, s1) =>
      match s1.consume .leftParen "Expect '(' after function name" with
      | .ok s2 =>
        let (mRp, s3) := s2.match_token .rightParen
        if mRp then
          match expression fuel s3 with
          | .ok (body, s4) => .ok (.funcDecl name [] body, s4)
          | .error er => .error er
          | .panicked => .panicked
          | .timeout => .timeout
        else
          match params_loop fuel s3 [] with
          | .ok (params, s4) =>
            match s4.consume .rightParen "Expect ')' after parameters" with
            | .ok s5 =>
              match expression fuel s5 with
              | .ok (body, s6) => .ok (.funcDecl name params body, s6)
              | .error er => .error er
              | .panicked => .panicked
              | .timeout => .timeout
            | .error er => .error er
            | .panicked => .panicked
            | .timeout => .timeout
          | .error er => .error er
          | .panicked => .panicked
          | .timeout => .timeout
      | .error er => .error er
      | .panicked => .panicked
      | .timeout => .timeout
    | .error er => .error er
    | .panicked => .panicked
    | .timeout => .timeout

/-- The parameter list loop of `function_statement`. -/
def params_loop : Nat → PState → List String →
    Outcome ParserError (List String × PState)
  | 0, _, _ => .timeout
  | fuel+1, s, acc =>
    match s.consume_identifier with
    | .ok (name, s1) =>
      let (mComma, s2) := s1.match_token .comma
      if mComma then params_loop fuel s2 (acc ++ [name])
      else .ok (acc ++ [name], s2)
    | .error er => .error er
    | .panicked => .panicked
    | .timeout => .timeout

/-- `Parser::while_expression`. -/
def while_expression : Nat → PState → Outcome ParserError (Expr × PState)
  | 0, _ => .timeout
  | fuel+1, s =>
    match expression fuel s with
    | .ok (condition, s1) =>
      match s1.consume .leftBrace "Expect '\x7b' after while condition" with
      | .ok s2 =>
        match stmts_until_rbrace fuel s2 [] with
        | .ok (body, s3) =>
          match s3.consume .rightBrace "Expect '\x7d' after while body" with
          | .ok s4 => .ok (.whileExpr condition body, s4)
          | .error er => .error er
          | .panicked => .panicked
          | .timeout => .timeout
        | .error er => .error er
        | .panicked => .panicked
        | .timeout => .timeout
      | .error er => .error er
      | .panicked => .panicked
      | .timeout => .timeout
    | .error er => .error er
    | .panicked => .panicked
    | .timeout => .timeout

/-- The statement-collection loop shared by `while_expression` and the
block arm of `primary`: parse statements until `}` or end of input. -/
def stmts_until_rbrace : Nat → PState → List Stmt →
    Outcome ParserError (List Stmt × PState)
  | 0, _, _ => .timeout
  | fuel+1, s, acc =>
    if s.check .rightBrace ∨ s.is_at_end then .ok (acc, s)
    else
      match statementP fuel s with
      | .ok (stmt, s1) => stmts_until_rbrace fuel s1 (acc ++ [stmt])
      | .error er => .error er
      | .panicked => .panicked
      | .timeout => .timeout

/-- `Parser::expression`: `if`/`while` dispatch, otherwise `assignment`. -/
def expression : Nat → PState → Outcome ParserError (Expr × PState)
  | 0, _ => .timeout
  | fuel+1, s =>
    let (mIf, s1) := s.match_token .ifKw
    if mIf then if_expression fuel s1
    else
      let (mWhile, s1) := s.match_token .whileKw
      if mWhile then while_expression fuel s1
      else assignment fuel s

/-- `Parser::if_expression`. -/
def if_expression : Nat → PState → Outcome ParserError (Expr × PState)
  | 0, _ => .timeout
  | fuel+1, s =>
    match expression fuel s with
    | .ok (condition, s1) =>
      match expression fuel s1 with
      | .ok (then_branch, s2) =>
        let (mElse, s3) := s2.match_token .elseKw
        if mElse then
          match expression fuel s3 with
          | .ok (else_branch, s4) =>
            .ok (.ifExpr condition then_branch (some else_branch), s4)
          | .error er => .error er
          | .panicked => .panicked
          | .timeout => .timeout
        else .ok (.ifExpr condition then_branch none, s3)
      | .error er => .error er
      | .panicked => .panicked
      | .timeout => .timeout
    | .error er => .error er
    | .panicked => .panicked
    | .timeout => .timeout

/-- `Parser::assignment`.  The dedicated right-associative branch after
`equality` is transcribed as written; since `equality` itself greedily
consumes every `Equal` token, the branch is dead code (see the theorems on
C6). -/
def assignment : Nat → PState → Outcome ParserError (Expr × PState)
  | 0, _ => .timeout
  | fuel+1, s =>
    match equality fuel s with
    | .ok (e, s1) =>
      let (mEq, s2) := s1.match_token .equal
      if mEq then
        match assignment fuel s2 with
        | .ok (value, s3) =>
          match e with
          | .var name =>
            .ok (.binaryOp (.var name) .equal value, s3)
          | _ => .panicked   -- panic!("Invalid assignment target")
        | .error er => .error er
        | .panicked => .panicked
        | .timeout => .timeout
      else .ok (e, s1)
    | .error er => .error er
    | .panicked => .panicked
    | .timeout => .timeout

/-- `Parser::equality` — note that it matches the shared `Equal` token, so
it also consumes `=` written as assignment, left-associatively. -/
def equality : Nat → PState → Outcome ParserError (Expr × PState)
  | 0, _ => .timeout
  | fuel+1, s =>
    match comparison fuel s with
    | .ok (e, s1) => equality_loop fuel e s1
    | .error er => .error er
    | .panicked => .panicked
    | .timeout => .timeout

/-- The `while match_token` loop of `equality`. -/
def equality_loop : Nat → Expr → PState → Outcome ParserError (Expr × PState)
  | 0, _, _ => .timeout
  | fuel+1, e, s =>
    let (m1, s1) := s.match_token .equal
    if m1 then
      match comparison fuel s1 with
      | .ok (right, s2) =>
        equality_loop fuel (.binaryOp e s1.previousTok.kind right) s2
      | .error er => .error er
      | .panicked => .panicked
      | .timeout => .timeout
    else
      let (m2, s2) := s.match_token .notEqual
      if m2 then
        match comparison fuel s2 with
        | .ok (right, s3) =>
          equality_loop fuel (.binaryOp e s2.previousTok.kind right) s3
        | .error er => .error er
        | .panicked => .panicked
        | .timeout => .timeout
      else .ok (e, s)

/-- `Parser::comparison`. -/
def comparison : Nat → PState → Outcome ParserError (Expr × PState)
  | 0, _ => .timeout
  | fuel+1, s =>
    match term fuel s with
    | .ok (e, s1) => comparison_loop fuel e s1
    | .error er => .error er
    | .panicked => .panicked
    | .timeout => .timeout

/-- The `while match_token` loop of `comparison`. -/
def comparison_loop : Nat → Expr → PState →
    Outcome ParserError (Expr × PState)
  | 0, _, _ => .timeout
  | fuel+1, e, s =>
    let (m1, s1) := s.match_token .greaterThan
    if m1 then comparison_step fuel e s1
    else
      let (m2, s2) := s.match_token .greaterThanOrEqual
      if m2 then comparison_step fuel e s2
      else
        let (m3, s3) := s.match_token .lessThan
        if m3 then comparison_step fuel e s3
        else
          let (m4, s4) := s.match_token .lessThanOrEqual
          if m4 then comparison_step fuel e s4
          else .ok (e, s)

/-- One iteration body of the `comparison` loop (the operator token has
just been consumed, so it is `previous`). -/
def comparison_step : Nat → Expr → PState →
    Outcome ParserError (Expr × PState)
  | 0, _, _ => .timeout
  | fuel+1, e, s =>
    match term fuel s with
    | .ok (right, s1) =>
      comparison_loop fuel (.binaryOp e s.previousTok.kind right) s1
    | .error er => .error er
    | .panicked => .panicked
    | .timeout => .timeout

/-- `Parser::term` (`+`/`-`). -/
def term : Nat → PState → Outcome ParserError (Expr × PState)
  | 0, _ => .timeout
  | fuel+1, s =>
    match factor fuel s with
    | .ok (e, s1) => term_loop fuel e s1
    | .error er => .error er
    | .panicked => .panicked
    | .timeout => .timeout

/-- The `while match_token` loop of `term`. -/
def term_loop : Nat → Expr → PState → Outcome ParserError (Expr × PState)
  | 0, _, _ => .timeout
  | fuel+1, e, s =>
    let (m1, s1) := s.match_token .plus
    if m1 then
      match factor fuel s1 with
      | .ok (right, s2) =>
        term_loop fuel (.binaryOp e s1.previousTok.kind right) s2
      | .error er => .error er
      | .panicked => .panicked
      | .timeout => .timeout
    else
      let (m2, s2) := s.match_token .minus
      if m2 then
        match factor fuel s2 with
        | .ok (right, s3) =>
          term_loop fuel (.binaryOp e s2.previousTok.kind right) s3
        | .error er => .error er
        | .panicked => .panicked
        | .timeout => .timeout
      else .ok (e, s)

/-- `Parser::factor` (`*`/`/`). -/
def factor : Nat → PState → Outcome ParserError (Expr × PState)
  | 0, _ => .timeout
  | fuel+1, s =>
    match unary fuel s with
    | .ok (e, s1) => factor_loop fuel e s1
    | .error er => .error er
    | .panicked => .panicked
    | .timeout => .timeout

/-- The `while match_token` loop of `factor`. -/
def factor_loop : Nat → Expr → PState → Outcome ParserError (Expr × PState)
  | 0, _, _ => .timeout
  | fuel+1, e, s =>
    let (m1, s1) := s.match_token .multiply
    if m1 then
      match unary fuel s1 with
      | .ok (right, s2) =>
        factor_loop fuel (.binaryOp e s1.previousTok.kind right) s2
      | .error er => .error er
      | .panicked => .panicked
      | .timeout => .timeout
    else
      let (m2, s2) := s.match_token .divide
      if m2 then
        match unary fuel s2 with
        | .ok (right, s3) =>
          factor_loop fuel (.binaryOp e s2.previousTok.kind right) s3
        | .error er => .error er
        | .panicked => .panicked
        | .timeout => .timeout
      else .ok (e, s)

/-- `Parser::unary` (prefix `-`). -/
def unary : Nat → PState → Outcome ParserError (Expr × PState)
  | 0, _ => .timeout
  | fuel+1, s =>
    let (m1, s1) := s.match_token .minus
    if m1 then
      match unary fuel s1 with
      | .ok (e, s2) => .ok (.unaryOp s1.previousTok.kind e, s2)
      | .error er => .error er
      | .panicked => .panicked
      | .timeout => .timeout
    else primary fuel s

/-- `Parser::primary`.  The catch-all arm is
`panic!("Unexpected token {:?} at {}:{}")`, not a returned error. -/
def primary : Nat → PState → Outcome ParserError (Expr × PState)
  | 0, _ => .timeout
  | fuel+1, s =>
    if s.is_at_end then
      .error ⟨.UnexpectedEOF, "Unexpected end of file. Expected expression."⟩
    else
      match s.currentTok.kind with
      | .number n => .ok (.number n, (s.advance).2)
      | .boolean b => .ok (.boolean b, (s.advance).2)
      | .string str => .ok (.string str, (s.advance).2)
      | .identifier name =>
        let s1 := (s.advance).2
        let (mLp, s2) := s1.match_token .leftParen
        if mLp then
          let (mRp, s3) := s2.match_token .rightParen
          if mRp then .ok (.functionCall name [], s3)
          else
            match call_args_loop fuel s3 [] with
            | .ok (args, s4) =>
              match s4.consume .rightParen "Expect ')' after arguments" with
              | .ok s5 => .ok (.functionCall name args, s5)
              | .error er => .error er
              | .panicked => .panicked
              | .timeout => .timeout
            | .error er => .error er
            | .panicked => .panicked
            | .timeout => .timeout
        else .ok (.var name, s2)
      | .leftParen =>
        let s1 := (s.advance).2
        match expression fuel s1 with
        | .ok (e, s2) =>
          match s2.consume .rightParen "Expect ')' after expression" with
          | .ok s3 => .ok (e, s3)
          | .error er => .error er
          | .panicked => .panicked
          | .timeout => .timeout
        | .error er => .error er
        | .panicked => .panicked
        | .timeout => .timeout
      | .leftBrace =>
        let s1 := (s.advance).2
        match stmts_until_rbrace fuel s1 [] with
        | .ok (statements, s2) =>
          match s2.consume .rightBrace "Expect '\x7d' after block" with
          | .ok s3 => .ok (.block statements, s3)
          | .error er => .error er
          | .panicked => .panicked
          | .timeout => .timeout
        | .error er => .error er
        | .panicked => .panicked
        | .timeout => .timeout
      | _ => .panicked   -- panic!("Unexpected token {:?} at {}:{}")

/-- The call-argument loop of `primary`. -/
def call_args_loop : Nat → PState → List Expr →
    Outcome ParserError (List Expr × PState)
  | 0, _, _ => .timeout
  | fuel+1, s, acc =>
    match expression fuel s with
    | .ok (arg, s1) =>
      let (mComma, s2) := s1.match_token .comma
      if mComma then call_args_loop fuel s2 (acc ++ [arg])
      else .ok (acc ++ [arg], s2)
    | .error er => .error er
    | .panicked => .panicked
    | .timeout => .timeout

/-- The `while !is_at_end` loop of `Parser::parse`. -/
def parse_loop : Nat → PState → List Stmt →
    Outcome ParserError (List Stmt × PState)
  | 0, _, _ => .timeout
  | fuel+1, s, acc =>
    if s.is_at_end then .ok (acc, s)
    else
      match statementP fuel s with
      | .ok (stmt, s1) => parse_loop fuel s1 (acc ++ [stmt])
      | .error er => .error er
      | .panicked => .panicked
      | .timeout => .timeout
end

/-- `parse` from `parser/mod.rs`: filter out comment tokens, then parse
statements until end of input. -/
def parseProgram (fuel : Nat) (tokens : List Token) :
    Outcome ParserError (List Stmt) :=
  let filtered := tokens.filter (fun t =>
    match t.kind with
    | .comment _ => false
    | _ => true)
  match parse_loop fuel ⟨filtered, 0⟩ [] with
  | .ok (stmts, _) => .ok stmts
  | .error er => .error er
  | .panicked => .panicked
  | .timeout => .timeout

/-- The library pipeline of `run_file`/`handle_command` in `lib.rs`:
tokenize, parse, evaluate in a fresh environment, and report the result as
`run_file` does (`some value` on success **or** on a top-level
`Return(value)`, `none` on any other error, at any stage). -/
def runSource (fuel : Nat) (source : String) : Option Value :=
  match tokenize source with
  | .ok tokens =>
    match parseProgram fuel tokens with
    | .ok ast => run_file_report (eval_with_env fuel ast Environment.new)
    | _ => none
  | _ => none

/-! ## Spec-side definitions -/

/-- The token kinds remaining at the parser cursor. -/
def remKinds (s : PState) : List TokenKind :=
  (s.tokens.drop s.current).map (fun t => t.kind)

/-- Spec-side definition (§4.2): a statement "sits on the block's/program's
last non-empty line" when nothing but newline tokens remains before the end
of input or before the next `}`.  Defined on the remaining token-kind list,
independently of the parser's cursor-moving helpers; the empty list counts
as end of input (lexer streams always end in `Eof`). -/
def specLastNonEmptyLine : List TokenKind → Bool
  | [] => true
  | .newline :: rest => specLastNonEmptyLine rest
  | .eof :: _ => true
  | .rightBrace :: _ => true
  | _ => false

/-- Bool test: a token kind that ends a "last non-empty line" region
(the end of input, or the closing brace of the enclosing block). -/
def isEndKind : TokenKind → Bool
  | .eof => true
  | .rightBrace => true
  | _ => false

/-- Does a parse outcome classify the statement as `Stmt::Result`? -/
def isResultOutcome : Outcome ParserError (Stmt × PState) → Bool
  | .ok (.result _, _) => true
  | _ => false

/-- Does a parse outcome classify the statement as a plain `Stmt::Expr`? -/
def isExprOutcome : Outcome ParserError (Stmt × PState) → Bool
  | .ok (.expr _, _) => true
  | _ => false

/-! ## Concrete inputs used by the theorems -/

/-- Tokens of `{ let x = 0; while x < 3 { x = x + 1 } }` (spans as produced
by `tokenize`). -/
def whileCollectTokens : List Token :=
  [⟨.leftBrace, ⟨1, 1⟩⟩, ⟨.letKw, ⟨1, 3⟩⟩, ⟨.identifier "x", ⟨1, 7⟩⟩,
   ⟨.equal, ⟨1, 9⟩⟩, ⟨.number (.int 0), ⟨1, 11⟩⟩, ⟨.semicolon, ⟨1, 12⟩⟩,
   ⟨.whileKw, ⟨1, 14⟩⟩, ⟨.identifier "x", ⟨1, 20⟩⟩, ⟨.lessThan, ⟨1, 22⟩⟩,
   ⟨.number (.int 3), ⟨1, 24⟩⟩, ⟨.leftBrace, ⟨1, 26⟩⟩,
   ⟨.identifier "x", ⟨1, 28⟩⟩, ⟨.equal, ⟨1, 30⟩⟩, ⟨.identifier "x", ⟨1, 32⟩⟩,
   ⟨.plus, ⟨1, 34⟩⟩, ⟨.number (.int 1), ⟨1, 36⟩⟩, ⟨.rightBrace, ⟨1, 38⟩⟩,
   ⟨.rightBrace, ⟨1, 40⟩⟩, ⟨.eof, ⟨1, 41⟩⟩]

/-- The AST of `{ let x = 0; while x < 3 { x = x + 1 } }`. -/
def whileCollectAst : List Stmt :=
  [.result (.block
    [.letStmt "x" (.number (.int 0)),
     .result (.whileExpr (.binaryOp (.var "x") .lessThan (.number (.int 3)))
       [.result (.binaryOp (.var "x") .equal
         (.binaryOp (.var "x") .plus (.number (.int 1))))])])]

/-- Tokens of `while false { 1 }`. -/
def whileFalseTokens : List Token :=
  [⟨.whileKw, ⟨1, 1⟩⟩, ⟨.boolean false, ⟨1, 7⟩⟩, ⟨.leftBrace, ⟨1, 13⟩⟩,
   ⟨.number (.int 1), ⟨1, 15⟩⟩, ⟨.rightBrace, ⟨1, 17⟩⟩, ⟨.eof, ⟨1, 18⟩⟩]

/-- The AST of `while false { 1 }`. -/
def whileFalseAst : List Stmt :=
  [.result (.whileExpr (.boolean false) [.result (.number (.int 1))])]

/-- Tokens of `x = y = 2`. -/
def assignChainTokens : List Token :=
  [⟨.identifier "x", ⟨1, 1⟩⟩, ⟨.equal, ⟨1, 3⟩⟩, ⟨.identifier "y", ⟨1, 5⟩⟩,
   ⟨.equal, ⟨1, 7⟩⟩, ⟨.number (.int 2), ⟨1, 9⟩⟩, ⟨.eof, ⟨1, 10⟩⟩]

/-- Tokens of `a = b = 1`. -/
def assignChainTokens2 : List Token :=
  [⟨.identifier "a", ⟨1, 1⟩⟩, ⟨.equal, ⟨1, 3⟩⟩, ⟨.identifier "b", ⟨1, 5⟩⟩,
   ⟨.equal, ⟨1, 7⟩⟩, ⟨.number (.int 1), ⟨1, 9⟩⟩, ⟨.eof, ⟨1, 10⟩⟩]

/-- Tokens of the one-character program `+`. -/
def plusOnlyTokens : List Token := [⟨.plus, ⟨1, 1⟩⟩, ⟨.eof, ⟨1, 2⟩⟩]

/-- Tokens of the one-character program `*`. -/
def starOnlyTokens : List Token := [⟨.multiply, ⟨1, 1⟩⟩, ⟨.eof, ⟨1, 2⟩⟩]

/-- Tokens of the one-character program `(`. -/
def lparenOnlyTokens : List Token := [⟨.leftParen, ⟨1, 1⟩⟩, ⟨.eof, ⟨1, 2⟩⟩]

/-- Tokens of `(x` — an unclosed parenthesis. -/
def lparenIdTokens : List Token :=
  [⟨.leftParen, ⟨1, 1⟩⟩, ⟨.identifier "x", ⟨1, 2⟩⟩, ⟨.eof, ⟨1, 3⟩⟩]

/-- Tokens of `while true {}` — a while with an empty body. -/
def whileEmptyTokens : List Token :=
  [⟨.whileKw, ⟨1, 1⟩⟩, ⟨.boolean true, ⟨1, 7⟩⟩, ⟨.leftBrace, ⟨1, 12⟩⟩,
   ⟨.rightBrace, ⟨1, 13⟩⟩, ⟨.eof, ⟨1, 14⟩⟩]

/-- A program whose user function reads a *caller-local* variable:
`let secret = 42; fn f() { secret }; f()`. -/
def callerLocalProg : List Stmt :=
  [.letStmt "secret" (.number (.int 42)),
   .funcDecl "f" [] (.block [.result (.var "secret")]),
   .result (.functionCall "f" [])]

/-- A recursive program:
`fn f(n) { if n > 0 { f(n - 1) } else { 0 } }; f(3)`. -/
def recursionProg : List Stmt :=
  [.funcDecl "f" ["n"] (.block [.result (.ifExpr
      (.binaryOp (.var "n") .greaterThan (.number (.int 0)))
      (.block [.result (.functionCall "f"
        [.binaryOp (.var "n") .minus (.number (.int 1))])])
      (some (.block [.result (.number (.int 0))])))]),
   .result (.functionCall "f" [.number (.int 3)])]

/-- The body of a self-recursive nullary function `f`: `{ f() }`. -/
def selfCallBody : Expr := .block [.result (.functionCall "f" [])]

/-- Tokens of `let x = 1\nx == 2` (the newline is structurally
significant). -/
def eqAssignPipelineTokens : List Token :=
  [⟨.letKw, ⟨1, 1⟩⟩, ⟨.identifier "x", ⟨1, 5⟩⟩, ⟨.equal, ⟨1, 7⟩⟩,
   ⟨.number (.int 1), ⟨1, 9⟩⟩, ⟨.newline, ⟨1, 10⟩⟩,
   ⟨.identifier "x", ⟨2, 1⟩⟩, ⟨.equal, ⟨2, 3⟩⟩, ⟨.number (.int 2), ⟨2, 6⟩⟩,
   ⟨.eof, ⟨2, 7⟩⟩]

/-! ## Helper lemmas -/

lemma ltb_int (i j : Int) : (Number.int i).ltb (.int j) = decide (i < j) := by
  simp [Number.ltb, Number.cmp?]
  rcases lt_trichotomy i j with h | h | h
  · simp [compare_lt_iff_lt.2 h, h]
  · subst h
    have hc : compare i i = .eq := compare_eq_iff_eq.2 rfl
    simp [hc]
  · have hn : ¬ i < j := by omega
    simp [hn, compare_gt_iff_gt.2 h]

lemma leb_int (i j : Int) : (Number.int i).leb (.int j) = decide (i ≤ j) := by
  simp [Number.leb, Number.cmp?]
  rcases lt_trichotomy i j with h | h | h
  · simp [compare_lt_iff_lt.2 h, le_of_lt h]
  · subst h
    have hc : compare i i = .eq := compare_eq_iff_eq.2 rfl
    simp [hc]
  · have hn : ¬ i ≤ j := by omega
    simp [hn, compare_gt_iff_gt.2 h]

lemma gtb_int (i j : Int) : (Number.int i).gtb (.int j) = decide (j < i) := by
  simp [Number.gtb, Number.cmp?]
  rcases lt_trichotomy i j with h | h | h
  · have hn : ¬ j < i := by omega
    simp [hn, compare_lt_iff_lt.2 h]
  · subst h
    have hc : compare i i = .eq := compare_eq_iff_eq.2 rfl
    simp [hc]
  · simp [compare_gt_iff_gt.2 h, h]

lemma geb_int (i j : Int) : (Number.int i).geb (.int j) = decide (j ≤ i) := by
  simp [Number.geb, Number.cmp?]
  rcases lt_trichotomy i j with h | h | h
  · have hn : ¬ j ≤ i := by omega
    simp [hn, compare_lt_iff_lt.2 h]
  · subst h
    have hc : compare i i = .eq := compare_eq_iff_eq.2 rfl
    simp [hc]
  · simp [compare_gt_iff_gt.2 h, le_of_lt h]

lemma currentTok_kind (s : PState) :
    s.currentTok.kind = (remKinds s).headD .eof := by
  by_cases h : s.current < s.tokens.length
  · rw [remKinds, List.drop_eq_getElem_cons h]
    simp [PState.currentTok, List.getD_eq_getElem?_getD,
      List.getElem?_eq_getElem h]
  · have hd : s.tokens.drop s.current = [] := List.drop_eq_nil_iff.2 (by omega)
    have hn : s.tokens[s.current]? = none := List.getElem?_eq_none (by omega)
    simp [remKinds, hd, PState.currentTok, List.getD_eq_getElem?_getD, hn]

lemma is_at_end_eq (s : PState) :
    s.is_at_end = decide ((remKinds s).headD .eof = .eof) := by
  rw [PState.is_at_end, currentTok_kind]

lemma check_eq_headD (s : PState) (kind : TokenKind) (hk : kind ≠ .eof) :
    s.check kind = decide ((remKinds s).headD .eof = kind) := by
  rw [PState.check, is_at_end_eq, currentTok_kind]
  cases hr : remKinds s with
  | nil => simp [Ne.symm hk]
  | cons k rest =>
    by_cases h : k = TokenKind.eof
    · subst h
      simp [Ne.symm hk]
    · simp [h]

lemma delete_continuous_tokens_eq (kind : TokenKind) (s : PState) :
    delete_continuous_tokens kind s =
      if s.check kind then delete_continuous_tokens kind (s.advance).2
      else s := by
  by_cases h : s.check kind = true
  · have hlt := check_lt_length h
    have hend : s.is_at_end = false := by
      rcases hb : s.is_at_end with _ | _
      · rfl
      · exfalso
        rw [PState.check, hb] at h
        simp at h
    have hadv : (s.advance).2 = { s with current := s.current + 1 } := by
      simp [PState.advance, hend]
    rw [if_pos h]
    unfold delete_continuous_tokens
    have hm : s.tokens.length - s.current =
        (s.tokens.length - (s.current + 1)) + 1 := by omega
    rw [hm]
    simp only [delete_continuous_tokensF, h, if_true]
    rw [hadv]
  · rw [if_neg h]
    unfold delete_continuous_tokens
    cases hm : s.tokens.length - s.current with
    | zero => rfl
    | succ k => simp [delete_continuous_tokensF, h]

lemma delete_spec (kind : TokenKind) (hk : kind ≠ .eof) :
    ∀ m (s : PState), s.tokens.length - s.current = m →
      (delete_continuous_tokens kind s).tokens = s.tokens ∧
      remKinds (delete_continuous_tokens kind s) =
        (remKinds s).dropWhile (fun k => decide (k = kind)) := by
  intro m
  induction m using Nat.strong_induction_on with
  | _ m ih =>
    intro s hm
    rw [delete_continuous_tokens_eq]
    by_cases hc : s.check kind = true
    · have hlt := check_lt_length hc
      have hend : s.is_at_end = false := by
        rcases hb : s.is_at_end with _ | _
        · rfl
        · exfalso
          rw [PState.check, hb] at hc
          simp at hc
      have hkind : s.currentTok.kind = kind := by
        rw [PState.check, hend] at hc
        simpa using hc
      have hadv : (s.advance).2 = { s with current := s.current + 1 } := by
        simp [PState.advance, hend]
      rw [if_pos hc, hadv]
      have hm1 : m - 1 < m := by omega
      obtain ⟨h1, h2⟩ := ih (m - 1) hm1 { s with current := s.current + 1 }
        (by simp; omega)
      refine ⟨by simpa using h1, ?_⟩
      rw [h2]
      have hget : s.tokens[s.current].kind = kind := by
        rw [← hkind, PState.currentTok, List.getD_eq_getElem?_getD,
          List.getElem?_eq_getElem hlt]
        rfl
      have hlt2 : s.current < (s.tokens.map (fun t => t.kind)).length := by
        simpa using hlt
      have hget2 : (s.tokens.map (fun t => t.kind))[s.current] = kind := by
        rw [List.getElem_map]
        exact hget
      have hcons : remKinds s =
          kind :: remKinds { s with current := s.current + 1 } := by
        simp only [remKinds, List.map_drop]
        rw [List.drop_eq_getElem_cons hlt2, hget2]
      rw [hcons]
      simp
    · rw [if_neg hc]
      refine ⟨rfl, ?_⟩
      cases hr : remKinds s with
      | nil => simp
      | cons k rest =>
        have hkh : s.currentTok.kind = k := by
          rw [currentTok_kind, hr]
          rfl
        have hkne : ¬ (k = kind) := by
          intro heq
          subst heq
          by_cases hend : s.is_at_end = true
          · have : s.currentTok.kind = .eof := by
              rw [PState.is_at_end] at hend
              simpa using hend
            rw [hkh] at this
            exact hk this
          · rw [PState.check] at hc
            simp [hend] at hc
            rw [hkh] at hc
            simp at hc
        simp [hkne]

lemma delete_spec2 (kind : TokenKind) (hk : kind ≠ .eof) (s : PState) :
    (delete_continuous_tokens kind s).tokens = s.tokens ∧
    remKinds (delete_continuous_tokens kind s) =
      (remKinds s).dropWhile (fun k => decide (k = kind)) :=
  delete_spec kind hk _ s rfl

lemma specLast_eq (r : List TokenKind) :
    specLastNonEmptyLine r =
      isEndKind ((r.dropWhile
        (fun k => decide (k = TokenKind.newline))).headD .eof) := by
  induction r with
  | nil => rfl
  | cons k rest ih =>
    by_cases h : k = TokenKind.newline
    · subst h
      simpa [specLastNonEmptyLine] using ih
    · cases k <;> simp_all [specLastNonEmptyLine, isEndKind]

lemma headD_dropWhile_newline (r : List TokenKind) :
    (r.dropWhile
      (fun k => decide (k = TokenKind.newline))).headD .eof ≠ .newline := by
  induction r with
  | nil => simp
  | cons k rest ih =>
    by_cases h : k = TokenKind.newline
    · subst h
      simpa using ih
    · simp [h]

lemma dropWhile_self_of_headD (r : List TokenKind)
    (h : r.headD .eof ≠ .newline) :
    r.dropWhile (fun k => decide (k = TokenKind.newline)) = r := by
  cases r with
  | nil => rfl
  | cons k rest =>
    have : ¬ (k = TokenKind.newline) := by simpa using h
    simp [this]

lemma identKind_ne_assign (ident : String) : identKind ident ≠ .assign := by
  unfold identKind
  split_ifs <;> simp

lemma lexStep_no_assign (st st1 : LexState) (t : Token)
    (h : lexStep st = .ok (some t, st1)) : t.kind ≠ .assign := by
  unfold lexStep at h
  by_cases h1 : st.cur = ' ' ∨ st.cur = '\t' ∨ st.cur = '\r'
  · rw [if_pos h1] at h
    exact absurd h (by simp)
  · rw [if_neg h1] at h
    by_cases h2 : st.cur = '\n'
    · rw [if_pos h2] at h
      simp only [Outcome.ok.injEq, Prod.mk.injEq, Option.some.injEq] at h
      rw [← h.1]
      simp
    · rw [if_neg h2] at h
      by_cases h3 : st.cur = '+'
      · rw [if_pos h3] at h
        simp only [Outcome.ok.injEq, Prod.mk.injEq, Option.some.injEq] at h
        rw [← h.1]
        simp
      · rw [if_neg h3] at h
        by_cases h4 : st.cur = '-'
        · rw [if_pos h4] at h
          simp only [Outcome.ok.injEq, Prod.mk.injEq, Option.some.injEq] at h
          rw [← h.1]
          simp
        · rw [if_neg h4] at h
          by_cases h5 : st.cur = '*'
          · rw [if_pos h5] at h
            simp only [Outcome.ok.injEq, Prod.mk.injEq, Option.some.injEq] at h
            rw [← h.1]
            simp
          · rw [if_neg h5] at h
            by_cases h6 : st.cur = '/'
            · rw [if_pos h6] at h
              by_cases hp1 : st.bump.position < st.bump.input.length
              · rw [if_pos hp1] at h
                by_cases hp2 : st.bump.cur = '/'
                · rw [if_pos hp2] at h
                  rcases hsc : scanLineComment st.bump "" with ⟨comment, st2⟩
                  rw [hsc] at h
                  dsimp only at h
                  simp only [Outcome.ok.injEq, Prod.mk.injEq, Option.some.injEq] at h
                  rw [← h.1]
                  simp
                · rw [if_neg hp2] at h
                  by_cases hp3 : st.bump.cur = '*'
                  · rw [if_pos hp3] at h
                    rcases hsc : scanBlockComment st.bump.bump "" 1 with ⟨comment, st3⟩
                    rw [hsc] at h
                    dsimp only at h
                    simp only [Outcome.ok.injEq, Prod.mk.injEq, Option.some.injEq] at h
                    rw [← h.1]
                    simp
                  · rw [if_neg hp3] at h
                    simp only [Outcome.ok.injEq, Prod.mk.injEq, Option.some.injEq] at h
                    rw [← h.1]
                    simp
              · rw [if_neg hp1] at h
                simp only [Outcome.ok.injEq, Prod.mk.injEq, Option.some.injEq] at h
                rw [← h.1]
                simp
            · rw [if_neg h6] at h
              by_cases h7 : st.cur = '='
              · rw [if_pos h7] at h
                by_cases hs : st.bump.position < st.bump.input.length ∧ st.bump.cur = '='
                · rw [if_pos hs] at h
                  simp only [Outcome.ok.injEq, Prod.mk.injEq, Option.some.injEq] at h
                  rw [← h.1]
                  simp
                · rw [if_neg hs] at h
                  simp only [Outcome.ok.injEq, Prod.mk.injEq, Option.some.injEq] at h
                  rw [← h.1]
                  simp
              · rw [if_neg h7] at h
                by_cases h8 : st.cur = '!'
                · rw [if_pos h8] at h
                  by_cases hs : st.bump.position < st.bump.input.length ∧ st.bump.cur = '='
                  · rw [if_pos hs] at h
                    simp only [Outcome.ok.injEq, Prod.mk.injEq, Option.some.injEq] at h
                    rw [← h.1]
                    simp
                  · rw [if_neg hs] at h
                    exact absurd h (by simp)
                · rw [if_neg h8] at h
                  by_cases h9 : st.cur = '>'
                  · rw [if_pos h9] at h
                    by_cases hs : st.bump.position < st.bump.input.length ∧ st.bump.cur = '='
                    · rw [if_pos hs] at h
                      simp only [Outcome.ok.injEq, Prod.mk.injEq, Option.some.injEq] at h
                      rw [← h.1]
                      simp
                    · rw [if_neg hs] at h
                      simp only [Outcome.ok.injEq, Prod.mk.injEq, Option.some.injEq] at h
                      rw [← h.1]
                      simp
                  · rw [if_neg h9] at h
                    by_cases h10 : st.cur = '<'
                    · rw [if_pos h10] at h
                      by_cases hs : st.bump.position < st.bump.input.length ∧ st.bump.cur = '='
                      · rw [if_pos hs] at h
                        simp only [Outcome.ok.injEq, Prod.mk.injEq, Option.some.injEq] at h
                        rw [← h.1]
                        simp
                      · rw [if_neg hs] at h
                        simp only [Outcome.ok.injEq, Prod.mk.injEq, Option.some.injEq] at h
                        rw [← h.1]
                        simp
                    · rw [if_neg h10] at h
                      by_cases h11 : st.cur = '('
                      · rw [if_pos h11] at h
                        simp only [Outcome.ok.injEq, Prod.mk.injEq, Option.some.injEq] at h
                        rw [← h.1]
                        simp
                      · rw [if_neg h11] at h
                        by_cases h12 : st.cur = ')'
                        · rw [if_pos h12] at h
                          simp only [Outcome.ok.injEq, Prod.mk.injEq, Option.some.injEq] at h
                          rw [← h.1]
                          simp
                        · rw [if_neg h12] at h
                          by_cases h13 : st.cur = ','
                          · rw [if_pos h13] at h
                            simp only [Outcome.ok.injEq, Prod.mk.injEq, Option.some.injEq] at h
                            rw [← h.1]
                            simp
                          · rw [if_neg h13] at h
                            by_cases h14 : st.cur = '{'
                            · rw [if_pos h14] at h
                              simp only [Outcome.ok.injEq, Prod.mk.injEq, Option.some.injEq] at h
                              rw [← h.1]
                              simp
                            · rw [if_neg h14] at h
                              by_cases h15 : st.cur = '}'
                              · rw [if_pos h15] at h
                                simp only [Outcome.ok.injEq, Prod.mk.injEq, Option.some.injEq] at h
                                rw [← h.1]
                                simp
                              · rw [if_neg h15] at h
                                by_cases h16 : st.cur = ';'
                                · rw [if_pos h16] at h
                                  simp only [Outcome.ok.injEq, Prod.mk.injEq, Option.some.injEq] at h
                                  rw [← h.1]
                                  simp
                                · rw [if_neg h16] at h
                                  by_cases h17 : st.cur.isDigit
                                  · rw [if_pos h17] at h
                                    rcases hsn : scanNumber st "" with ⟨numStr, st2⟩
                                    rw [hsn] at h
                                    dsimp only at h
                                    rcases hpn : parseNumberString numStr with _ | n
                                    · rw [hpn] at h
                                      exact absurd h (by simp)
                                    · rw [hpn] at h
                                      simp only [Outcome.ok.injEq, Prod.mk.injEq, Option.some.injEq] at h
                                      rw [← h.1]
                                      simp
                                  · rw [if_neg h17] at h
                                    by_cases h18 : st.cur.isAlpha ∨ st.cur = '_'
                                    · rw [if_pos h18] at h
                                      rcases hsi : scanIdent st "" with ⟨ident, st2⟩
                                      rw [hsi] at h
                                      dsimp only at h
                                      simp only [Outcome.ok.injEq, Prod.mk.injEq, Option.some.injEq] at h
                                      rw [← h.1]
                                      exact identKind_ne_assign ident
                                    · rw [if_neg h18] at h
                                      by_cases h19 : st.cur = '\"'
                                      · rw [if_pos h19] at h
                                        rcases hss : scanString st.bump "" false with ⟨sstr, closed, st2⟩
                                        rw [hss] at h
                                        dsimp only at h
                                        cases closed
                                        · simp at h
                                        · simp only [if_true, Outcome.ok.injEq, Prod.mk.injEq, Option.some.injEq] at h
                                          rw [← h.1]
                                          simp
                                      · rw [if_neg h19] at h
                                        exact absurd h (by simp)

lemma tokenizeLoop_no_assign :
    ∀ (fuel : Nat) (st : LexState) (tokens res : List Token),
      (∀ t ∈ tokens, t.kind ≠ .assign) →
      tokenizeLoop fuel st tokens = .ok res →
      ∀ t ∈ res, t.kind ≠ .assign := by
  intro fuel
  induction fuel with
  | zero =>
    intro st tokens res hinv h
    rw [tokenizeLoop] at h
    exact absurd h (by simp)
  | succ n ih =>
    intro st tokens res hinv h
    rw [tokenizeLoop] at h
    split at h
    case isTrue hpos =>
      rcases hs : lexStep st with ⟨tk, st2⟩ | e | _ | _ <;> rw [hs] at h
      · rcases tk with _ | t2
        · exact ih _ _ _ hinv h
        · refine ih _ _ _ ?_ h
          intro tk htk
          rcases List.mem_append.1 htk with hm | hm
          · exact hinv tk hm
          · simp at hm
            subst hm
            exact lexStep_no_assign st st2 tk hs
      · exact absurd h (by simp)
      · exact absurd h (by simp)
      · exact absurd h (by simp)
    case isFalse hpos =>
      simp only [Outcome.ok.injEq] at h
      subst h
      intro tk htk
      rcases List.mem_append.1 htk with hm | hm
      · exact hinv tk hm
      · simp at hm
        subst hm
        simp

lemma tokenize_no_assign (source : String) (res : List Token)
    (h : tokenize source = .ok res) : ∀ t ∈ res, t.kind ≠ .assign :=
  tokenizeLoop_no_assign _ _ _ _ (by simp) h

/-! ## Claim C5 -/

/-- Claim C5 is refuted: a mixed `Int`/`Float` addition does not return
`TypeMismatch` — the `Add` impl panics (`"Cannot add non-numeric values"`),
and a mixed comparison returns `Ok(Boolean(false))` instead of an error. -/
theorem C5_counterexample :
    eval_expr 2 (.binaryOp (.number (.int 1)) .plus (.number (.float 2)))
        Environment.new = .panicked ∧
    eval_expr 2 (.binaryOp (.number (.int 1)) .greaterThan
        (.number (.float 0))) Environment.new =
      .ok (.boolean false, Environment.new) := by
  exact ⟨rfl, rfl⟩

/-- Claim C5, amended: mixed `Int`/`Float` operands of an arithmetic or
comparison operator never yield `TypeMismatch` and are never coerced:
`+ - * /` panic (via the `Number` ops' mixed arms), `> >= < <=` evaluate to
`Boolean(false)` (`partial_cmp` is `None`), `!=` evaluates to
`Boolean(true)`, and `==` never reaches number dispatch because the
evaluator intercepts the shared `Equal` token as assignment
(`InvalidOperation` for a non-variable left side).  Same-subvariant pairs
support `+ - *` (`i128` results wrapping into range, per `wrapI128`), the
four comparisons and `!=`; `Int` division panics for a zero divisor and
for the overflow case `i128::MIN / -1`, and yields the truncated quotient
for every other divisor. -/
theorem C5_number_op_behavior :
    (∀ (fuel : Nat) (env : Environment) (i : Int) (q : Rat),
      eval_expr (fuel+2) (.binaryOp (.number (.int i)) .plus
        (.number (.float q))) env = .panicked ∧
      eval_expr (fuel+2) (.binaryOp (.number (.float q)) .plus
        (.number (.int i))) env = .panicked ∧
      eval_expr (fuel+2) (.binaryOp (.number (.int i)) .minus
        (.number (.float q))) env = .panicked ∧
      eval_expr (fuel+2) (.binaryOp (.number (.int i)) .multiply
        (.number (.float q))) env = .panicked ∧
      eval_expr (fuel+2) (.binaryOp (.number (.int i)) .divide
        (.number (.float q))) env = .panicked) ∧
    (∀ (fuel : Nat) (env : Environment) (i : Int) (q : Rat),
      eval_expr (fuel+2) (.binaryOp (.number (.int i)) .greaterThan
        (.number (.float q))) env = .ok (.boolean false, env) ∧
      eval_expr (fuel+2) (.binaryOp (.number (.int i)) .greaterThanOrEqual
        (.number (.float q))) env = .ok (.boolean false, env) ∧
      eval_expr (fuel+2) (.binaryOp (.number (.int i)) .lessThan
        (.number (.float q))) env = .ok (.boolean false, env) ∧
      eval_expr (fuel+2) (.binaryOp (.number (.int i)) .lessThanOrEqual
        (.number (.float q))) env = .ok (.boolean false, env) ∧
      eval_expr (fuel+2) (.binaryOp (.number (.int i)) .notEqual
        (.number (.float q))) env = .ok (.boolean true, env)) ∧
    (∀ (fuel : Nat) (env : Environment) (l r : Number),
      eval_expr (fuel+2) (.binaryOp (.number l) .equal (.number r)) env =
        .error (.InvalidOperation "Invalid assignment target")) ∧
    (∀ (fuel : Nat) (env : Environment) (i j : Int),
      eval_expr (fuel+2) (.binaryOp (.number (.int i)) .plus
        (.number (.int j))) env =
          .ok (.number (.int (wrapI128 (i + j))), env) ∧
      eval_expr (fuel+2) (.binaryOp (.number (.int i)) .minus
        (.number (.int j))) env =
          .ok (.number (.int (wrapI128 (i - j))), env) ∧
      eval_expr (fuel+2) (.binaryOp (.number (.int i)) .multiply
        (.number (.int j))) env =
          .ok (.number (.int (wrapI128 (i * j))), env) ∧
      eval_expr (fuel+2) (.binaryOp (.number (.int i)) .lessThan
        (.number (.int j))) env = .ok (.boolean (decide (i < j)), env) ∧
      eval_expr (fuel+2) (.binaryOp (.number (.int i)) .lessThanOrEqual
        (.number (.int j))) env = .ok (.boolean (decide (i ≤ j)), env) ∧
      eval_expr (fuel+2) (.binaryOp (.number (.int i)) .greaterThan
        (.number (.int j))) env = .ok (.boolean (decide (j < i)), env) ∧
      eval_expr (fuel+2) (.binaryOp (.number (.int i)) .greaterThanOrEqual
        (.number (.int j))) env = .ok (.boolean (decide (j ≤ i)), env) ∧
      eval_expr (fuel+2) (.binaryOp (.number (.int i)) .notEqual
        (.number (.int j))) env = .ok (.boolean (decide (¬ i = j)), env) ∧
      eval_expr (fuel+2) (.binaryOp (.number (.int i)) .divide
        (.number (.int 0))) env = .panicked ∧
      eval_expr (fuel+2) (.binaryOp (.number (.int i128Min)) .divide
        (.number (.int (-1)))) env = .panicked) ∧
    (∀ (fuel : Nat) (env : Environment) (i j : Int), j ≠ 0 →
      ¬(i = i128Min ∧ j = -1) →
      eval_expr (fuel+2) (.binaryOp (.number (.int i)) .divide
        (.number (.int j))) env =
        .ok (.number (.int (Int.tdiv i j)), env)) ∧
    (∀ (fuel : Nat) (env : Environment) (p q : Rat),
      eval_expr (fuel+2) (.binaryOp (.number (.float p)) .plus
        (.number (.float q))) env = .ok (.number (.float (p + q)), env) ∧
      eval_expr (fuel+2) (.binaryOp (.number (.float p)) .multiply
        (.number (.float q))) env = .ok (.number (.float (p * q)), env) ∧
      (∃ b, eval_expr (fuel+2) (.binaryOp (.number (.float p)) .lessThan
        (.number (.float q))) env = .ok (.boolean b, env))) := by
  refine ⟨?_, ?_, ?_, ?_, ?_, ?_⟩
  · intro fuel env i q
    refine ⟨?_, ?_, ?_, ?_, ?_⟩ <;>
      simp [eval_expr, evalBinaryOpValues, evalBinaryNumberOp,
        Number.add?, Number.sub?, Number.mul?, Number.div?]
  · intro fuel env i q
    refine ⟨?_, ?_, ?_, ?_, ?_⟩ <;>
      simp [eval_expr, evalBinaryOpValues, evalBinaryNumberOp,
        Number.gtb, Number.geb, Number.ltb, Number.leb, Number.eqb,
        Number.cmp?]
  · intro fuel env l r
    simp [eval_expr]
  · intro fuel env i j
    refine ⟨?_, ?_, ?_, ?_, ?_, ?_, ?_, ?_, ?_, ?_⟩ <;>
      simp [eval_expr, evalBinaryOpValues, evalBinaryNumberOp,
        Number.add?, Number.sub?, Number.mul?, Number.div?, Number.eqb,
        i128Min, ltb_int, leb_int, gtb_int, geb_int]
  · intro fuel env i j hj hmin
    simp [eval_expr, evalBinaryOpValues, evalBinaryNumberOp,
      Number.div?, hj, hmin]
  · intro fuel env p q
    refine ⟨?_, ?_, ?_⟩ <;>
      simp [eval_expr, evalBinaryOpValues, evalBinaryNumberOp,
        Number.add?, Number.mul?, Number.ltb, Number.cmp?]

/-- Witness for C5: the amended theorem applied at concrete inputs,
including the hypothesis-bearing division conjunct at `7 / 2 = 3`. -/
theorem C5_witness :
    (2 : Int) ≠ 0 ∧
    ¬((7 : Int) = i128Min ∧ (2 : Int) = -1) ∧
    eval_expr 3 (.binaryOp (.number (.int 7)) .divide (.number (.int 2)))
        Environment.new = .ok (.number (.int 3), Environment.new) ∧
    eval_expr 3 (.binaryOp (.number (.int 1)) .minus (.number (.float 2)))
        Environment.new = .panicked := by
  refine ⟨by decide, by decide, ?_, ?_⟩
  · exact (C5_number_op_behavior.2.2.2.2.1 1 Environment.new 7 2
      (by decide) (by decide))
  · exact (C5_number_op_behavior.1 1 Environment.new 1 2).2.2.1

/-! ## Claim C6 -/

/-- Claim C6 is refuted on associativity: `x = y = 2` parses as the
left-associated `(x = y) = 2` (built by the `equality` production), not the
right-associated `x = (y = 2)` the claim requires. -/
theorem C6_counterexample :
    parseProgram 50 assignChainTokens =
      .ok [.result (.binaryOp (.binaryOp (.var "x") .equal (.var "y"))
        .equal (.number (.int 2)))] := by
  rfl

/-- Claim C6, amended: the `=`/`==` token is consumed by the `equality`
production, left-associatively at equality precedence (the dedicated
right-associative assignment branch of `assignment` never fires because
`equality` has already consumed every `Equal`).  Evaluation of a `BinaryOp`
whose operator is `Equal` computes the right-hand side first, then, when
the left side is a bare variable, (re)binds the name in the current
environment and yields the value; any other left side is
`InvalidOperation`. -/
theorem C6_assignment_semantics :
    parseProgram 50 assignChainTokens2 =
      .ok [.result (.binaryOp (.binaryOp (.var "a") .equal (.var "b"))
        .equal (.number (.int 1)))] ∧
    (∀ (fuel : Nat) (name : String) (rhs : Expr) (env env1 : Environment)
        (v : Value),
      eval_expr fuel rhs env = .ok (v, env1) →
      eval_expr (fuel+1) (.binaryOp (.var name) .equal rhs) env =
        .ok (v, env1.define name v)) ∧
    (∀ (fuel : Nat) (lhs rhs : Expr) (env : Environment),
      (∀ nm, lhs ≠ .var nm) →
      eval_expr (fuel+1) (.binaryOp lhs .equal rhs) env =
        .error (.InvalidOperation "Invalid assignment target")) := by
  refine ⟨rfl, ?_, ?_⟩
  · intro fuel name rhs env env1 v h
    simp [eval_expr, h]
  · intro fuel lhs rhs env h
    cases lhs <;> simp [eval_expr] <;> exact absurd rfl (h _)

/-- Witness for C6: the amended theorem applied at concrete inputs — an
assignment to `z` yields the value and rebinds `z`; an assignment to the
literal `1` is `InvalidOperation`. -/
theorem C6_witness :
    eval_expr 1 (.number (.int 5)) Environment.new =
      .ok (.number (.int 5), Environment.new) ∧
    eval_expr 2 (.binaryOp (.var "z") .equal (.number (.int 5)))
        Environment.new =
      .ok (.number (.int 5), Environment.new.define "z" (.number (.int 5))) ∧
    eval_expr 2 (.binaryOp (.number (.int 1)) .equal (.number (.int 5)))
        Environment.new =
      .error (.InvalidOperation "Invalid assignment target") := by
  refine ⟨rfl, ?_, ?_⟩
  · exact C6_assignment_semantics.2.1 1 "z" (.number (.int 5))
      Environment.new Environment.new (.number (.int 5)) rfl
  · exact C6_assignment_semantics.2.2 1 (.number (.int 1))
      (.number (.int 5)) Environment.new (fun nm h => by cases h)

/-! ## Claim C7 -/

/-- Claim C7 is refuted: the token sequence of the program `+` does not
yield a returned `ParseError` — the catch-all arm of `primary` panics. -/
theorem C7_counterexample : parseProgram 30 plusOnlyTokens = .panicked := by
  rfl

/-- Claim C7, amended: the parser performs no error recovery — the first
statement error aborts the whole parse — and a missing required token
yields `UnexpectedToken` carrying the token actually found (the `Eof`
token when the input has ended), while an expression required at end of
input yields `UnexpectedEOF`; but not every malformed input returns a
`ParseError`: an unexpected token at the head of a primary expression
aborts by `panic!` instead. -/
theorem C7_parse_failure_modes :
    (∀ (fuel : Nat) (s : PState) (acc : List Stmt) (er : ParserError),
      s.is_at_end = false →
      statementP fuel s = .error er →
      parse_loop (fuel+1) s acc = .error er) ∧
    parseProgram 30 lparenOnlyTokens =
      .error ⟨.UnexpectedEOF, "Unexpected end of file. Expected expression."⟩ ∧
    parseProgram 30 lparenIdTokens =
      .error ⟨.UnexpectedToken ⟨.eof, ⟨1, 3⟩⟩,
        "Expect ')' after expression"⟩ ∧
    parseProgram 30 starOnlyTokens = .panicked := by
  refine ⟨?_, by rfl, by rfl, by rfl⟩
  intro fuel s acc er hend h
  simp [parse_loop, hend, h]

/-- Witness for C7: the no-recovery conjunct applied to the concrete state
of the `(` program, whose first statement fails with `UnexpectedEOF`. -/
theorem C7_witness :
    (PState.mk lparenOnlyTokens 0).is_at_end = false ∧
    statementP 29 ⟨lparenOnlyTokens, 0⟩ =
      .error ⟨.UnexpectedEOF, "Unexpected end of file. Expected expression."⟩ ∧
    parse_loop 30 ⟨lparenOnlyTokens, 0⟩ [] =
      .error ⟨.UnexpectedEOF, "Unexpected end of file. Expected expression."⟩ := by
  refine ⟨by rfl, by rfl, ?_⟩
  exact C7_parse_failure_modes.1 29 ⟨lparenOnlyTokens, 0⟩ []
    ⟨.UnexpectedEOF, "Unexpected end of file. Expected expression."⟩ (by rfl)
    (by rfl)

/-! ## Claim C8 -/

/-- Claim C8: a block evaluates its statements in a clone of the current
environment; the block's value is the threaded value of its statement list
(the tail statement's value), and the enclosing environment after the
block is exactly the environment before it. -/
theorem C8_block_scoping :
    (∀ (fuel : Nat) (stmts : List Stmt) (env benv : Environment) (v : Value),
      eval_stmts fuel stmts env .nil = .ok (v, benv) →
      eval_expr (fuel+1) (.block stmts) env = .ok (v, env)) ∧
    (∀ (fuel : Nat) (stmts : List Stmt) (env env' : Environment) (v : Value),
      eval_expr (fuel+1) (.block stmts) env = .ok (v, env') →
      env' = env) := by
  constructor
  · intro fuel stmts env benv v h
    simp [eval_expr, h]
  · intro fuel stmts env env' v h
    simp only [eval_expr] at h
    rcases hs : eval_stmts fuel stmts env .nil with ⟨w, benv⟩ | er | _ | _ <;>
      rw [hs] at h <;> simp_all

/-- Witness for C8: the block `{ let x = 1; x }` applied to the theorem —
the `let` binding is invisible outside, the tail value `1` is the block's
value. -/
theorem C8_witness :
    eval_stmts 4 [.letStmt "x" (.number (.int 1)), .result (.var "x")]
        Environment.new .nil =
      .ok (.number (.int 1), Environment.new.define "x" (.number (.int 1))) ∧
    eval_expr 5 (.block [.letStmt "x" (.number (.int 1)), .result (.var "x")])
        Environment.new = .ok (.number (.int 1), Environment.new) := by
  refine ⟨by rfl, ?_⟩
  exact C8_block_scoping.1 4 [.letStmt "x" (.number (.int 1)),
    .result (.var "x")] Environment.new
    (Environment.new.define "x" (.number (.int 1))) (.number (.int 1)) (by rfl)

/-! ## Claim C1 -/

/-- Claim C1 is refuted twice over: (a) in the pipeline evaluator the call
environment is `env.clone()` — a clone of the *caller's* environment — so
the program `let secret = 42; fn f() { secret }; f()` reports `42` where
the claim requires `secret` to be invisible in `f` (an `UndefinedVariable`
error); (b) in the dead-code `UserFunction::call` convention the
environment is `Environment::new()`, which holds *no* function
definitions, so a self-recursive call fails with `UndefinedVariable("f")`
where the claim requires recursion to resolve. -/
theorem C1_counterexample :
    run_file_report (evalProgram 20 callerLocalProg) =
      some (.number (.int 42)) ∧
    UserFunction.call 20 [] selfCallBody [] =
      .error (.UndefinedVariable "f") := by
  exact ⟨by rfl, by rfl⟩

/-- Claim C1, amended: a user-function call evaluates the body in a
*clone of the caller's environment* taken at the call, extended with the
parameters bound to the eagerly evaluated arguments — so the caller's local
variables are visible inside the callee — and recursion resolves because
function definitions are part of that clone.  First conjunct: a nullary
function whose body reads `x` returns the caller's binding of `x`
unchanged and leaves the caller environment intact; second conjunct: the
recursive countdown `fn f(n) { if n > 0 { f(n - 1) } else { 0 } }; f(3)`
runs to `0`. -/
theorem C1_call_clones_caller_env :
    (∀ (fuel : Nat) (env : Environment) (f x : String) (v : Value),
      env.get_function f = some ([], .block [.result (.var x)]) →
      env.get x = some v →
      eval_expr (fuel+5) (.functionCall f []) env = .ok (v, env)) ∧
    run_file_report (evalProgram 40 recursionProg) =
      some (.number (.int 0)) := by
  constructor
  · intro fuel env f x v h1 h2
    simp [eval_expr, eval_call_args, eval_stmts, eval_stmt, h1, h2]
  · rfl

/-- Witness for C1: the amended theorem applied to the concrete environment
binding `x := 42` and `f := fn() { x }`. -/
theorem C1_witness :
    ((Environment.new.define "x" (.number (.int 42))).define_function "f" []
      (.block [.result (.var "x")])).get_function "f" =
        some ([], .block [.result (.var "x")]) ∧
    ((Environment.new.define "x" (.number (.int 42))).define_function "f" []
      (.block [.result (.var "x")])).get "x" = some (.number (.int 42)) ∧
    eval_expr 5 (.functionCall "f" [])
      ((Environment.new.define "x" (.number (.int 42))).define_function "f" []
        (.block [.result (.var "x")])) =
      .ok (.number (.int 42),
        (Environment.new.define "x" (.number (.int 42))).define_function "f" []
          (.block [.result (.var "x")])) := by
  refine ⟨by rfl, by rfl, ?_⟩
  exact C1_call_clones_caller_env.1 0
    ((Environment.new.define "x" (.number (.int 42))).define_function "f" []
      (.block [.result (.var "x")])) "f" "x" (.number (.int 42))
    (by rfl) (by rfl)

/-! ## Claim C2 -/

/-- Claim C2: the while condition is re-evaluated before each iteration
and must be Boolean; a loop that never iterates yields `Nil`, otherwise it
yields an `Array` accumulating, per iteration, the value of the body's
last statement (`eval_stmt` of the tail statement, the earlier statements
running for effect only).  The last six conjuncts run the spec's two
examples through the embedded lexer, parser and evaluator. -/
theorem C2_while_loop_semantics :
    (∀ (fuel : Nat) (cond : Expr) (body : List Stmt) (env env1 : Environment),
      eval_expr fuel cond env = .ok (.boolean false, env1) →
      eval_expr (fuel+2) (.whileExpr cond body) env = .ok (.nil, env1)) ∧
    (∀ (fuel : Nat) (cond : Expr) (body : List Stmt)
        (env env1 env2 env3 : Environment) (acc : List Value) (last : Stmt)
        (w v : Value),
      eval_expr fuel cond env = .ok (.boolean true, env1) →
      body.getLast? = some last →
      eval_stmts fuel body.dropLast env1 .nil = .ok (w, env2) →
      eval_stmt fuel last env2 = .ok (v, env3) →
      while_aux (fuel+1) cond body env acc =
        while_aux fuel cond body env3 (acc ++ [v])) ∧
    (∀ (fuel : Nat) (cond : Expr) (body : List Stmt) (env env1 : Environment)
        (vs : List Value),
      while_aux fuel cond body env [] = .ok (vs, env1) →
      eval_expr (fuel+1) (.whileExpr cond body) env =
        .ok ((if vs.isEmpty then .nil else .array vs), env1)) ∧
    (∀ (fuel : Nat) (cond : Expr) (body : List Stmt) (env env1 : Environment)
        (v : Value),
      eval_expr fuel cond env = .ok (v, env1) →
      (∀ b, v ≠ .boolean b) →
      eval_expr (fuel+2) (.whileExpr cond body) env =
        .error (.TypeMismatch "While condition must be boolean")) ∧
    tokenize "{ let x = 0; while x < 3 { x = x + 1 } }" =
      .ok whileCollectTokens ∧
    parseProgram 50 whileCollectTokens = .ok whileCollectAst ∧
    run_file_report (evalProgram 50 whileCollectAst) =
      some (.array [.number (.int 1), .number (.int 2), .number (.int 3)]) ∧
    tokenize "while false { 1 }" = .ok whileFalseTokens ∧
    parseProgram 50 whileFalseTokens = .ok whileFalseAst ∧
    run_file_report (evalProgram 50 whileFalseAst) = some .nil := by
  refine ⟨?_, ?_, ?_, ?_, by rfl, by rfl, by rfl, by rfl, by rfl, by rfl⟩
  · intro fuel cond body env env1 h
    simp [eval_expr, while_aux, h]
  · intro fuel cond body env env1 env2 env3 acc last w v h1 h2 h3 h4
    simp [while_aux, h1, h2, h3, h4]
  · intro fuel cond body env env1 vs h
    simp [eval_expr, h]
  · intro fuel cond body env env1 v h1 h2
    rcases v with n | b | s | a | o | _ <;> simp [eval_expr, while_aux, h1]
    exact absurd rfl (h2 _)

/-- Witness for C2: the zero-iteration and wrap-up conjuncts applied to
the literal-`false` loop. -/
theorem C2_witness :
    eval_expr 1 (.boolean false) Environment.new =
      .ok (.boolean false, Environment.new) ∧
    eval_expr 3 (.whileExpr (.boolean false) [.result (.number (.int 1))])
        Environment.new = .ok (.nil, Environment.new) ∧
    while_aux 2 (.boolean false) [.result (.number (.int 1))]
        Environment.new [] = .ok ([], Environment.new) ∧
    eval_expr 3 (.whileExpr (.boolean false) [.result (.number (.int 1))])
        Environment.new =
      .ok ((if ([] : List Value).isEmpty then Value.nil
            else Value.array []), Environment.new) := by
  refine ⟨by rfl, ?_, by rfl, ?_⟩
  · exact C2_while_loop_semantics.1 1 (.boolean false)
      [.result (.number (.int 1))] Environment.new Environment.new (by rfl)
  · exact C2_while_loop_semantics.2.2.1 2 (.boolean false)
      [.result (.number (.int 1))] Environment.new Environment.new []
      (by rfl)

/-! ## Claim C4 -/

/-- Claim C4: `return` raises `InterpreterError::Return(value)` (`Nil` for
a bare `return`), which propagates outward through block, if and while
evaluation exactly like an error, is intercepted at the user-function call
boundary and converted into the call's successful `Ok(value)`, and — when
it reaches the top level — is reported as the program's final value by
`run_file`, not as an error. -/
theorem C4_return_signal_propagation :
    (∀ (fuel : Nat) (e : Expr) (env env1 : Environment) (v : Value),
      eval_expr fuel e env = .ok (v, env1) →
      eval_stmt (fuel+1) (.ret (some e)) env = .error (.Return v)) ∧
    (∀ (fuel : Nat) (env : Environment),
      eval_stmt (fuel+1) (.ret none) env = .error (.Return .nil)) ∧
    (∀ (fuel : Nat) (stmts : List Stmt) (env : Environment)
        (er : InterpreterError),
      eval_stmts fuel stmts env .nil = .error er →
      eval_expr (fuel+1) (.block stmts) env = .error er) ∧
    (∀ (fuel : Nat) (c t : Expr) (eb : Option Expr) (env env1 : Environment)
        (er : InterpreterError),
      eval_expr fuel c env = .ok (.boolean true, env1) →
      eval_expr fuel t env1 = .error er →
      eval_expr (fuel+1) (.ifExpr c t eb) env = .error er) ∧
    (∀ (fuel : Nat) (cond : Expr) (body : List Stmt)
        (env env1 env2 : Environment) (last : Stmt) (w : Value)
        (er : InterpreterError),
      eval_expr fuel cond env = .ok (.boolean true, env1) →
      body.getLast? = some last →
      eval_stmts fuel body.dropLast env1 .nil = .ok (w, env2) →
      eval_stmt fuel last env2 = .error er →
      eval_expr (fuel+2) (.whileExpr cond body) env = .error er) ∧
    (∀ (fuel : Nat) (name : String) (args : List Expr)
        (env env' call_env' : Environment) (params : List String)
        (body : Expr) (v : Value),
      env.get_function name = some (params, body) →
      params.length = args.length →
      eval_call_args fuel (params.zip args) env env = .ok (env', call_env') →
      eval_expr fuel body call_env' = .error (.Return v) →
      eval_expr (fuel+1) (.functionCall name args) env = .ok (v, env')) ∧
    (∀ (fuel : Nat) (prog : List Stmt) (env : Environment) (v : Value),
      eval_stmts fuel prog env .nil = .error (.Return v) →
      run_file_report (eval_with_env fuel prog env) = some v) ∧
    run_file_report (evalProgram 20 [.ret (some (.number (.int 7)))]) =
      some (.number (.int 7)) := by
  refine ⟨?_, ?_, ?_, ?_, ?_, ?_, ?_, by rfl⟩
  · intro fuel e env env1 v h
    simp [eval_stmt, h]
  · intro fuel env
    simp [eval_stmt]
  · intro fuel stmts env er h
    simp [eval_expr, h]
  · intro fuel c t eb env env1 er h1 h2
    simp [eval_expr, h1, h2]
  · intro fuel cond body env env1 env2 last w er h1 h2 h3 h4
    simp [eval_expr, while_aux, h1, h2, h3, h4]
  · intro fuel name args env env' call_env' params body v h1 h2 h3 h4
    simp [eval_expr, h1, h2, h3, h4]
  · intro fuel prog env v h
    simp [eval_with_env, run_file_report, h]

/-- Witness for C4: the interception conjunct applied to a concrete call of
`fn f() { return 5; }` — the `Return(5)` raised in the body becomes the
call's `Ok(5)`. -/
theorem C4_witness :
    (Environment.new.define_function "f" []
        (.block [.ret (some (.number (.int 5)))])).get_function "f" =
      some ([], .block [.ret (some (.number (.int 5)))]) ∧
    eval_call_args 10 [] (Environment.new.define_function "f" []
        (.block [.ret (some (.number (.int 5)))]))
      (Environment.new.define_function "f" []
        (.block [.ret (some (.number (.int 5)))])) =
      .ok (Environment.new.define_function "f" []
        (.block [.ret (some (.number (.int 5)))]),
        Environment.new.define_function "f" []
          (.block [.ret (some (.number (.int 5)))])) ∧
    eval_expr 10 (.block [.ret (some (.number (.int 5)))])
      (Environment.new.define_function "f" []
        (.block [.ret (some (.number (.int 5)))])) =
      .error (.Return (.number (.int 5))) ∧
    eval_expr 11 (.functionCall "f" [])
      (Environment.new.define_function "f" []
        (.block [.ret (some (.number (.int 5)))])) =
      .ok (.number (.int 5), Environment.new.define_function "f" []
        (.block [.ret (some (.number (.int 5)))])) := by
  refine ⟨by rfl, by rfl, by rfl, ?_⟩
  exact C4_return_signal_propagation.2.2.2.2.2.1 10 "f" []
    (Environment.new.define_function "f" []
      (.block [.ret (some (.number (.int 5)))]))
    (Environment.new.define_function "f" []
      (.block [.ret (some (.number (.int 5)))]))
    (Environment.new.define_function "f" []
      (.block [.ret (some (.number (.int 5)))]))
    [] (.block [.ret (some (.number (.int 5)))]) (.number (.int 5))
    (by rfl) (by rfl) (by rfl) (by rfl)

/-! ## Claim C3 -/

/-- Claim C3: after parsing a bare expression as a candidate statement,
the parser classifies it as `Stmt::Result` exactly when (no semicolon
follows and) only newline tokens remain before the end of input or before
the next `}` — i.e. the statement sits on the last non-empty line of its
enclosing block or program (`specLastNonEmptyLine`, defined independently
on the remaining token kinds) — and as `Stmt::Expr` when a semicolon
follows or a newline follows with a non-empty line still ahead. -/
theorem C3_result_classification (e : Expr) (s : PState) :
    (isResultOutcome (classifyAfterExpr e s) = true ↔
      (s.check .semicolon = false ∧
        specLastNonEmptyLine (remKinds s) = true)) ∧
    (isExprOutcome (classifyAfterExpr e s) = true ↔
      (s.check .semicolon = true ∨
        (s.check .newline = true ∧
          specLastNonEmptyLine (remKinds s) = false))) ∧
    (s.check .semicolon = true → classifyAfterExpr e s = .ok (.expr e, s)) := by
  have hnl_ne : (TokenKind.newline : TokenKind) ≠ .eof := by simp
  have hrb_ne : (TokenKind.rightBrace : TokenKind) ≠ .eof := by simp
  obtain ⟨htok1, hrem1⟩ := delete_spec2 .newline hnl_ne s
  by_cases hsemi : s.check .semicolon = true
  · simp [classifyAfterExpr, hsemi, isResultOutcome, isExprOutcome]
  · have hsemi2 : s.check .semicolon = false := by
      simpa using hsemi
    have hchk1 : (delete_continuous_tokens .newline s).check .newline =
        false := by
      rw [check_eq_headD _ _ hnl_ne, hrem1]
      simpa using headD_dropWhile_newline (remKinds s)
    have hdel2 : delete_continuous_tokens .newline
        (delete_continuous_tokens .newline s) =
        delete_continuous_tokens .newline s := by
      rw [delete_continuous_tokens_eq, hchk1]
      simp
    have hbl : (delete_continuous_tokens .newline s).check .rightBrace =
        decide (((remKinds s).dropWhile
          (fun k => decide (k = TokenKind.newline))).headD .eof =
            .rightBrace) := by
      rw [check_eq_headD _ _ hrb_ne, hrem1]
    have hend1 : (delete_continuous_tokens .newline s).is_at_end =
        decide (((remKinds s).dropWhile
          (fun k => decide (k = TokenKind.newline))).headD .eof = .eof) := by
      rw [is_at_end_eq, hrem1]
    by_cases hnl : s.check .newline = true
    · by_cases he : ((remKinds s).dropWhile
          (fun k => decide (k = TokenKind.newline))).head?.getD
            TokenKind.eof = .eof
      · simp [classifyAfterExpr, hsemi2, hnl, is_at_block_last_not_empty_line,
          is_at_last_not_empty_line, delete_empty_lines, hdel2, hbl, hend1,
          he, isResultOutcome, isExprOutcome, specLast_eq, isEndKind]
      · by_cases hrb : ((remKinds s).dropWhile
            (fun k => decide (k = TokenKind.newline))).head?.getD
              TokenKind.eof = .rightBrace
        · simp [classifyAfterExpr, hsemi2, hnl,
            is_at_block_last_not_empty_line, is_at_last_not_empty_line,
            delete_empty_lines, hdel2, hbl, hend1, he, hrb,
            isResultOutcome, isExprOutcome, specLast_eq, isEndKind]
        · simp [classifyAfterExpr, hsemi2, hnl,
            is_at_block_last_not_empty_line, is_at_last_not_empty_line,
            delete_empty_lines, hdel2, hbl, hend1, he, hrb,
            isResultOutcome, isExprOutcome, specLast_eq, isEndKind]
    · have hnl2 : s.check .newline = false := by simpa using hnl
      have hhead : (remKinds s).headD .eof ≠ .newline := by
        intro hcontra
        rw [check_eq_headD _ _ hnl_ne, hcontra] at hnl2
        simp at hnl2
      have hdw : (remKinds s).dropWhile
          (fun k => decide (k = TokenKind.newline)) = remKinds s :=
        dropWhile_self_of_headD _ hhead
      have hdel0 : delete_continuous_tokens .newline s = s := by
        rw [delete_continuous_tokens_eq, hnl2]
        simp
      have hendS : s.is_at_end =
          decide ((remKinds s).head?.getD TokenKind.eof = .eof) := by
        rw [is_at_end_eq]
        simp
      have hblS : s.check .rightBrace =
          decide ((remKinds s).head?.getD TokenKind.eof = .rightBrace) := by
        rw [check_eq_headD _ _ hrb_ne]
        simp
      by_cases he : (remKinds s).head?.getD TokenKind.eof = .eof
      · simp [classifyAfterExpr, hsemi2, hnl2,
          is_at_block_last_not_empty_line, is_at_last_not_empty_line,
          delete_empty_lines, hdel0, hendS, hblS, he, hdw,
          isResultOutcome, isExprOutcome, specLast_eq, isEndKind]
      · by_cases hrb : (remKinds s).head?.getD TokenKind.eof = .rightBrace
        · simp [classifyAfterExpr, hsemi2, hnl2,
            is_at_block_last_not_empty_line, is_at_last_not_empty_line,
            delete_empty_lines, hdel0, hendS, hblS, he, hrb, hdw,
            isResultOutcome, isExprOutcome, specLast_eq, isEndKind]
        · simp [classifyAfterExpr, hsemi2, hnl2,
            is_at_block_last_not_empty_line, is_at_last_not_empty_line,
            delete_empty_lines, hdel0, hendS, hblS, he, hrb, hdw,
            isResultOutcome, isExprOutcome, specLast_eq, isEndKind]

/-- Witness for C3: the classification theorem applied to concrete parser
states — a semicolon ahead gives `Stmt::Expr`; a newline run before `}`
gives `Stmt::Result`. -/
theorem C3_witness :
    (PState.mk [⟨.semicolon, ⟨1, 2⟩⟩, ⟨.eof, ⟨1, 3⟩⟩] 0).check .semicolon
      = true ∧
    classifyAfterExpr (.number (.int 1))
      ⟨[⟨.semicolon, ⟨1, 2⟩⟩, ⟨.eof, ⟨1, 3⟩⟩], 0⟩ =
      .ok (.expr (.number (.int 1)),
        ⟨[⟨.semicolon, ⟨1, 2⟩⟩, ⟨.eof, ⟨1, 3⟩⟩], 0⟩) ∧
    isResultOutcome (classifyAfterExpr (.number (.int 2))
      ⟨[⟨.newline, ⟨1, 2⟩⟩, ⟨.newline, ⟨2, 1⟩⟩, ⟨.rightBrace, ⟨3, 1⟩⟩,
        ⟨.eof, ⟨3, 2⟩⟩], 0⟩) = true := by
  refine ⟨by rfl, ?_, ?_⟩
  · exact (C3_result_classification (.number (.int 1))
      ⟨[⟨.semicolon, ⟨1, 2⟩⟩, ⟨.eof, ⟨1, 3⟩⟩], 0⟩).2.2 (by rfl)
  · exact (C3_result_classification (.number (.int 2))
      ⟨[⟨.newline, ⟨1, 2⟩⟩, ⟨.newline, ⟨2, 1⟩⟩, ⟨.rightBrace, ⟨3, 1⟩⟩,
        ⟨.eof, ⟨3, 2⟩⟩], 0⟩).1.mpr ⟨by rfl, by rfl⟩

/-! ## Claim C9 -/

/-- Claim C9: the lexer emits `TokenKind::Equal` for both `=` and `==` and
never produces `Assign` (on any input whatsoever); consequently a
`BinaryOp` built from `x == e` carries the `Equal` operator, which the
evaluator executes as an assignment — it rebinds `x` to the value of `e`
and yields that value — never as an equality comparison.  The last three
conjuncts run `let x = 1\nx == 2` through the pipeline: the program
evaluates to `2` (the assigned value), not to a Boolean. -/
theorem C9_double_equal_is_assignment :
    tokenize "=" = .ok [⟨.equal, ⟨1, 1⟩⟩, ⟨.eof, ⟨1, 2⟩⟩] ∧
    tokenize "==" = .ok [⟨.equal, ⟨1, 1⟩⟩, ⟨.eof, ⟨1, 3⟩⟩] ∧
    (∀ (source : String) (res : List Token),
      tokenize source = .ok res → ∀ t ∈ res, t.kind ≠ .assign) ∧
    (∀ (fuel : Nat) (name : String) (rhs : Expr) (env env1 : Environment)
        (v : Value),
      eval_expr fuel rhs env = .ok (v, env1) →
      eval_expr (fuel+1) (.binaryOp (.var name) .equal rhs) env =
        .ok (v, env1.define name v)) ∧
    tokenize "let x = 1\nx == 2" = .ok eqAssignPipelineTokens ∧
    parseProgram 50 eqAssignPipelineTokens =
      .ok [.letStmt "x" (.number (.int 1)),
           .result (.binaryOp (.var "x") .equal (.number (.int 2)))] ∧
    run_file_report (evalProgram 50
      [.letStmt "x" (.number (.int 1)),
       .result (.binaryOp (.var "x") .equal (.number (.int 2)))]) =
      some (.number (.int 2)) := by
  refine ⟨by rfl, by rfl, tokenize_no_assign, ?_, by rfl, by rfl, by rfl⟩
  intro fuel name rhs env env1 v h
  simp [eval_expr, h]

/-- Witness for C9: the no-`Assign` conjunct applied to the concrete
source `==`, and the assignment conjunct applied to a literal right-hand
side. -/
theorem C9_witness :
    tokenize "==" = .ok [⟨.equal, ⟨1, 1⟩⟩, ⟨.eof, ⟨1, 3⟩⟩] ∧
    (∀ t ∈ [(⟨.equal, ⟨1, 1⟩⟩ : Token), ⟨.eof, ⟨1, 3⟩⟩],
      t.kind ≠ .assign) ∧
    eval_expr 1 (.number (.int 9)) Environment.new =
      .ok (.number (.int 9), Environment.new) ∧
    eval_expr 2 (.binaryOp (.var "w") .equal (.number (.int 9)))
        Environment.new =
      .ok (.number (.int 9), Environment.new.define "w" (.number (.int 9))) := by
  refine ⟨by rfl, ?_, by rfl, ?_⟩
  · exact C9_double_equal_is_assignment.2.2.1 "==" _ (by rfl)
  · exact C9_double_equal_is_assignment.2.2.2.1 1 "w" (.number (.int 9))
      Environment.new Environment.new (.number (.int 9)) (by rfl)

/-! ## Claim C10 -/

/-- Claim C10: `while true {}` parses (the body statement list may be
empty), and once the condition of a while with an empty body evaluates to
`true` the evaluator hits `body.split_last().unwrap()` on the empty body
and panics instead of returning any `Result`. -/
theorem C10_empty_while_body_panics :
    parseProgram 50 whileEmptyTokens =
      .ok [.result (.whileExpr (.boolean true) [])] ∧
    (∀ (fuel : Nat) (cond : Expr) (env env1 : Environment),
      eval_expr fuel cond env = .ok (.boolean true, env1) →
      eval_expr (fuel+2) (.whileExpr cond []) env = .panicked) := by
  refine ⟨by rfl, ?_⟩
  intro fuel cond env env1 h
  simp [eval_expr, while_aux, h]

/-- Witness for C10: the panic conjunct applied to the literal condition
`true` of the parsed program. -/
theorem C10_witness :
    eval_expr 1 (.boolean true) Environment.new =
      .ok (.boolean true, Environment.new) ∧
    eval_expr 3 (.whileExpr (.boolean true) []) Environment.new =
      .panicked := by
  refine ⟨rfl, ?_⟩
  exact C10_empty_while_body_panics.2 1 (.boolean true) Environment.new
    Environment.new rfl

end MPLang
